import Mathlib

/-!
Verification development for the kiro-account-farm registration engine.

Each section shallowly embeds one component of the source tree:
* `src/services/proxy.ts` — proxy rotation with fraud screening and the
  persisted used-IP set (file persistence is modelled as explicit state
  passing; the fraud-scoring HTTP endpoint is an oracle `Nat → Option
  FraudCheckResult` indexed by the candidate port, which is faithful
  because the port counter is strictly increasing so no port is queried
  twice within a call).
* `src/automation/aws-builder-id/register.ts` — page classification and
  the per-page action dispatch with its processed-page deduplication.
* `src/utils/mailtm-otp.ts` / `src/utils/email-provider.ts` — the OTP
  polling loop (the provider's single-attempt fetch is an oracle indexed
  by the attempt number).
* `src/automation/aws-builder-id/session.ts` / `worker.ts` — the session
  registry and the registration worker's status transitions, error
  handling and browser cleanup (the externally-failing flow steps are an
  oracle `FlowOutcome`).
* `src/automation/aws-builder-id/orchestrator.ts` — the per-account
  retry loop of `processEmailWorker` and `exportResults`.
-/

namespace KiroAccountFarm

/-! Section: proxy selector (src/services/proxy.ts). -/

/-- Shape of the fraud-scoring endpoint response (interface FraudCheckResponse). -/
structure FraudCheckResult where
  ip : String
  fraudScore : Int
  isResidential : Bool
  country : String
  countryCode : String
  city : String
  timezone : String
deriving DecidableEq, Repr

/-- Proxy credentials from the environment, without the port (getProxyFromEnv). -/
structure ProxyBase where
  host : String
  username : String
  password : String
deriving DecidableEq, Repr

/-- Interface ProxyConfig. -/
structure ProxyConfig where
  host : String
  username : String
  password : String
  port : Nat
deriving DecidableEq, Repr

/-- Interface ValidProxyResult. -/
structure ValidProxyResult where
  proxy : ProxyConfig
  timezone : String
  countryCode : String
deriving DecidableEq, Repr

/-- The module-level mutable state of proxy.ts: the persisted port counter and
the persisted used-IP set (in-memory `Set` plus append-only file). -/
structure ProxyState where
  portCounter : Nat
  usedIps : List String
deriving DecidableEq, Repr

/-- Constant FRAUD_SCORE_THRESHOLD in proxy.ts. -/
def FRAUD_SCORE_THRESHOLD : Int := 30

/-- Function isIpUsed. -/
def isIpUsed (s : ProxyState) (ip : String) : Bool := s.usedIps.contains ip

/-- Function addUsedIp: `Set.add` semantics (no duplicate entries in memory). -/
def addUsedIp (s : ProxyState) (ip : String) : ProxyState :=
  if s.usedIps.contains ip then s else { s with usedIps := ip :: s.usedIps }

/-- Function resetUsedIps. -/
def resetUsedIps (s : ProxyState) : ProxyState := { s with usedIps := [] }

/-- Function getUsedIpsCount. -/
def getUsedIpsCount (s : ProxyState) : Nat := s.usedIps.length

/-- Function getNextProxy: plain rotation, bumps the port counter only. -/
def getNextProxy (base : Option ProxyBase) (s : ProxyState) :
    Option ProxyConfig × ProxyState :=
  match base with
  | none => (none, s)
  | some b =>
    (some { host := b.host, username := b.username, password := b.password,
            port := s.portCounter },
     { s with portCounter := s.portCounter + 1 })

/-- The `for (let attempt = 0; attempt < maxAttempts; attempt++)` loop of
getNextValidProxy, by recursion on the remaining attempts.  `check` is the
fraud-scoring endpoint reached through the candidate port (`null` when the
request fails). -/
def getNextValidProxyLoop (check : Nat → Option FraudCheckResult) (b : ProxyBase) :
    Nat → ProxyState → Option ValidProxyResult × ProxyState
  | 0, s => (none, s)
  | n + 1, s =>
    let currentPort := s.portCounter
    let s1 : ProxyState := { s with portCounter := currentPort + 1 }
    match check currentPort with
    | none => getNextValidProxyLoop check b n s1
    | some r =>
      if isIpUsed s1 r.ip then getNextValidProxyLoop check b n s1
      else if !r.isResidential then getNextValidProxyLoop check b n s1
      else if r.fraudScore > FRAUD_SCORE_THRESHOLD then getNextValidProxyLoop check b n s1
      else
        (some { proxy := { host := b.host, username := b.username,
                           password := b.password, port := currentPort },
                timezone := r.timezone, countryCode := r.countryCode },
         addUsedIp s1 r.ip)

/-- Function getNextValidProxy (default maxAttempts = 1000). -/
def getNextValidProxy (check : Nat → Option FraudCheckResult) (base : Option ProxyBase)
    (maxAttempts : Nat) (s : ProxyState) : Option ValidProxyResult × ProxyState :=
  match base with
  | none => (none, s)
  | some b => getNextValidProxyLoop check b maxAttempts s

/-- Acceptance condition for one candidate port: the fraud check succeeds, the
IP is unused, residential, and scores at or below the threshold. -/
def acceptsCandidate (check : Nat → Option FraudCheckResult) (used : List String)
    (port : Nat) : Bool :=
  match check port with
  | none => false
  | some r =>
    !used.contains r.ip && r.isResidential && decide (r.fraudScore ≤ FRAUD_SCORE_THRESHOLD)

/-! Section: page-flow driver (src/automation/aws-builder-id/register.ts).
JavaScript strings are modelled as lists of characters so that the JS
`String.prototype.split` / `includes` used by the driver are fully
executable and provable. -/

/-- JS string model. -/
abbrev JStr := List Char

/-- JS `haystack.includes(needle)`. -/
def jsIncludes (haystack needle : JStr) : Bool :=
  haystack.tails.any (fun t => needle.isPrefixOf t)

/-- One step of JS `String.prototype.split(sep)` for a single-character
separator, expressed as a fold step. -/
def jsSplitStep (c : Char) (x : Char) (acc : List JStr) : List JStr :=
  if x = c then [] :: acc else (x :: acc.headD []) :: acc.tail

/-- JS `s.split(c)` for a single-character separator: always returns a
non-empty list of segments. -/
def jsSplit (c : Char) (s : JStr) : List JStr := s.foldr (jsSplitStep c) [[]]

/-- Type PageType (src/types/aws-builder-id.ts, extended with the `signup`
combined page used by register.ts). -/
inductive PageType where
  | login
  | signup
  | name
  | verify
  | password
  | device_confirm
  | allow_access
  | complete
  | unknown
deriving DecidableEq, Repr

/-- The TS string literal of a PageType, as used in `${pageType}:${cleanUrl}`. -/
def pageTypeStr : PageType → JStr
  | .login => ("login".toList)
  | .signup => ("signup".toList)
  | .name => ("name".toList)
  | .verify => ("verify".toList)
  | .password => ("password".toList)
  | .device_confirm => ("device_confirm".toList)
  | .allow_access => ("allow_access".toList)
  | .complete => ("complete".toList)
  | .unknown => ("unknown".toList)

/-- The single batched DOM snapshot taken by detectPageType's one
`page.evaluate` round-trip: the body inner text plus the five element
indicator booleans. -/
structure DomState where
  text : JStr
  hasConfirmBtn : Bool
  hasAllowBtn : Bool
  hasPwdInputs : Bool
  hasNameInput : Bool
  hasEmailInput : Bool
deriving DecidableEq, Repr

/-- Function detectPageType: URL-substring checks first (no IPC needed), then
the DOM-indicator checks, in source order. -/
def detectPageType (url : JStr) (dom : DomState) : PageType :=
  if jsIncludes url ("awsapps.com".toList) && jsIncludes url ("#/device?user_code=".toList) then
    .device_confirm
  else if jsIncludes url ("verify-otp".toList) || jsIncludes url ("/verification".toList)
      || jsIncludes url ("verifyEmail".toList) then
    .verify
  else if jsIncludes url ("/signup?registrationCode=".toList) then
    .password
  else if jsIncludes url ("#/signup/start".toList) then
    .name
  else if dom.hasConfirmBtn then
    .device_confirm
  else if jsIncludes dom.text ("Confirm and continue".toList)
      || jsIncludes dom.text ("confirm this code".toList) then
    .device_confirm
  else if jsIncludes dom.text ("Request approved".toList)
      || jsIncludes dom.text ("You can close this window".toList) then
    .complete
  else if dom.hasAllowBtn then
    .allow_access
  else if (jsIncludes dom.text ("Allow access".toList)
      || jsIncludes dom.text ("allow access".toList)) && jsIncludes url ("awsapps.com".toList) then
    .allow_access
  else if jsIncludes dom.text ("Verify your email".toList)
      || jsIncludes dom.text ("verification code".toList) then
    .verify
  else if jsIncludes dom.text ("Create your password".toList) then
    .password
  else if dom.hasPwdInputs then
    .password
  else if dom.hasNameInput && dom.hasEmailInput then
    .signup
  else if jsIncludes url ("#/signup/enter-email".toList) && dom.hasNameInput then
    .signup
  else if dom.hasNameInput && !dom.hasEmailInput then
    .name
  else if (jsIncludes url ("/login?workflowStateHandle=".toList)
      || jsIncludes dom.text ("Get started".toList)) && dom.hasEmailInput then
    .login
  else
    .unknown

/-- Priority classifier transliterating the SPEC'S order (spec 4.4 and claim
C4): device-confirmation indicators first, then the completion banner, then
the allow-access control, then verification indicators, then password
indicators, then signup vs name vs login, falling back to unknown.  This is
deliberately written from the spec's words, to be compared with
`detectPageType` written from the source. -/
def claimOrderClassify (url : JStr) (dom : DomState) : PageType :=
  if (jsIncludes url ("awsapps.com".toList) && jsIncludes url ("#/device?user_code=".toList))
      || dom.hasConfirmBtn
      || jsIncludes dom.text ("Confirm and continue".toList)
      || jsIncludes dom.text ("confirm this code".toList) then
    .device_confirm
  else if jsIncludes dom.text ("Request approved".toList)
      || jsIncludes dom.text ("You can close this window".toList) then
    .complete
  else if dom.hasAllowBtn
      || ((jsIncludes dom.text ("Allow access".toList)
          || jsIncludes dom.text ("allow access".toList))
        && jsIncludes url ("awsapps.com".toList)) then
    .allow_access
  else if jsIncludes url ("verify-otp".toList) || jsIncludes url ("/verification".toList)
      || jsIncludes url ("verifyEmail".toList)
      || jsIncludes dom.text ("Verify your email".toList)
      || jsIncludes dom.text ("verification code".toList) then
    .verify
  else if jsIncludes url ("/signup?registrationCode=".toList)
      || jsIncludes dom.text ("Create your password".toList)
      || dom.hasPwdInputs then
    .password
  else if (dom.hasNameInput && dom.hasEmailInput)
      || (jsIncludes url ("#/signup/enter-email".toList) && dom.hasNameInput) then
    .signup
  else if jsIncludes url ("#/signup/start".toList) || (dom.hasNameInput && !dom.hasEmailInput) then
    .name
  else if (jsIncludes url ("/login?workflowStateHandle=".toList)
      || jsIncludes dom.text ("Get started".toList)) && dom.hasEmailInput then
    .login
  else
    .unknown

/-- Interface PageAutomationContext (context.ts): the per-session dedup set and
cookie-popup flag. -/
structure PageAutomationContext where
  processedPages : List JStr
  cookiePopupHandled : Bool
deriving DecidableEq, Repr

/-- Function createPageAutomationContext. -/
def createPageAutomationContext : PageAutomationContext :=
  { processedPages := [], cookiePopupHandled := false }

/-- Function getPageId: `${pageType}:${cleanUrl}` where cleanUrl drops the
query string (`url.split('?')[0]`) but keeps the first hash fragment
(`url.split('#')[1]`). -/
def getPageId (url : JStr) (pageType : PageType) : JStr :=
  let urlParts := jsSplit '?' url
  let baseUrl := urlParts.headD []
  let hash : JStr := if url.contains '#' then (jsSplit '#' url).getD 1 [] else []
  let cleanUrl := if hash.isEmpty then baseUrl else baseUrl ++ '#' :: hash
  pageTypeStr pageType ++ ':' :: cleanUrl

/-- Result record of processPage. -/
structure ProcessResult where
  success : Bool
  pageType : PageType
  error : Option String
deriving DecidableEq, Repr

/-- Function handleCookiePopup: once per session, best-effort dismissal (the
oracle `cookieDismissed` is whether a consent button was found and clicked);
the processed-page set is untouched. -/
def handleCookiePopup (cookieDismissed : Bool) (ctx : PageAutomationContext) :
    PageAutomationContext :=
  if !ctx.cookiePopupHandled && cookieDismissed then
    { ctx with cookiePopupHandled := true }
  else ctx

/-- Function processPage.  The per-page-type handlers (fill-and-submit /
click actions) are external browser interactions; their success is the
oracle `handler : PageType → Bool`.  `cookieDismissed` is the oracle for the
best-effort cookie-popup dismissal in handleCookiePopup. -/
def processPage (url : JStr) (dom : DomState) (handler : PageType → Bool)
    (cookieDismissed : Bool) (ctx : PageAutomationContext) :
    ProcessResult × PageAutomationContext :=
  let ctx0 := handleCookiePopup cookieDismissed ctx
  let pageType := detectPageType url dom
  let pageId := getPageId url pageType
  let skipDedup : Bool := pageType = PageType.device_confirm || pageType = PageType.allow_access
  if !skipDedup && ctx0.processedPages.contains pageId then
    ({ success := true, pageType := pageType, error := some ("Already processed") }, ctx0)
  else
    match pageType with
    | .unknown => ({ success := true, pageType := .unknown, error := none }, ctx0)
    | .complete =>
      ({ success := true, pageType := .complete, error := none },
       { ctx0 with processedPages := pageId :: ctx0.processedPages })
    | t =>
      let ok := handler t
      ({ success := ok, pageType := t, error := none },
       if ok then { ctx0 with processedPages := pageId :: ctx0.processedPages } else ctx0)

/-! Section: OTP retriever (src/utils/mailtm-otp.ts; the gmail / simplelogin /
freemail fetchers in the tree share the identical polling loop, and
email-provider.ts fetchOtp dispatches to the provider's fetcher).  The
provider-specific single attempt `tryFetchOtp` is the oracle `tryFetch`,
indexed by the attempt number; `Except.error` models a thrown exception
caught by the loop's catch branch. -/

/-- Interface OTPFetchResult. -/
structure OTPFetchResult where
  success : Bool
  code : Option String
  error : Option String
deriving DecidableEq, Repr

/-- JS truthiness of `result.code` (undefined and the empty string are falsy). -/
def otpCodeTruthy (r : OTPFetchResult) : Bool :=
  match r.code with
  | some c => !c.isEmpty
  | none => false

/-- Observable outcome of one retriever call: the returned result, the number
of poll attempts executed (`tryFetch` invocations), the attempt numbers at
which the `onPoll` observer fired, and the total time spent sleeping. -/
structure OtpRun where
  result : OTPFetchResult
  polls : Nat
  observed : List Nat
  sleptMs : Nat
deriving DecidableEq, Repr

/-- Decides that attempt `j` does not produce a code: either the fetch
returns unsuccessfully or it throws. -/
def otpAttemptFails (tryFetch : Nat → Except String OTPFetchResult) (j : Nat) : Bool :=
  match tryFetch j with
  | .ok rj => !(rj.success && otpCodeTruthy rj)
  | .error _ => true

/-- Polling loop of fetchMailtmOtp (`for (let attempt = 1; attempt <=
maxAttempts; attempt++)`), by recursion on the remaining attempts; the
wrapper supplies `fuel = maxAttempts` and `attempt = 1`. -/
def fetchMailtmOtpLoop (tryFetch : Nat → Except String OTPFetchResult)
    (maxAttempts intervalMs : Nat) : Nat → Nat → OtpRun
  | 0, _ =>
    { result :=
        { success := false, code := none,
          error := some ("No verification email found after "
            ++ toString maxAttempts ++ " attempts") },
      polls := 0, observed := [], sleptMs := 0 }
  | fuel + 1, attempt =>
    match tryFetch attempt with
    | .ok r =>
      if r.success && otpCodeTruthy r then
        { result := r, polls := 1, observed := [attempt], sleptMs := 0 }
      else
        let rest := fetchMailtmOtpLoop tryFetch maxAttempts intervalMs fuel (attempt + 1)
        { result := rest.result, polls := rest.polls + 1, observed := attempt :: rest.observed,
          sleptMs := rest.sleptMs + (if attempt < maxAttempts then intervalMs else 0) }
    | .error e =>
      if attempt = maxAttempts then
        { result := { success := false, code := none, error := some e },
          polls := 1, observed := [attempt], sleptMs := 0 }
      else
        let rest := fetchMailtmOtpLoop tryFetch maxAttempts intervalMs fuel (attempt + 1)
        { result := rest.result, polls := rest.polls + 1, observed := attempt :: rest.observed,
          sleptMs := rest.sleptMs + intervalMs }

/-- Function fetchMailtmOtp (defaults: maxAttempts = 30, pollIntervalMs =
2000; the session worker calls it with 45 and 2000). -/
def fetchMailtmOtp (tryFetch : Nat → Except String OTPFetchResult) (authenticated : Bool)
    (maxAttempts intervalMs : Nat) : OtpRun :=
  if !authenticated then
    { result :=
        { success := false, code := none,
          error := some ("Mail.tm client not authenticated. Call createSession() first.") },
      polls := 0, observed := [], sleptMs := 0 }
  else
    fetchMailtmOtpLoop tryFetch maxAttempts intervalMs maxAttempts 1

/-! Section: session registry (src/automation/aws-builder-id/session.ts).
The `Map<string, SessionState>` keyed by random UUID is modelled as a list
in insertion order; `generateUUID` returning a fresh identifier is modelled
by handing out the next natural number (the current registry length). -/

/-- Status union of SessionState. -/
inductive SessionStatus where
  | pending
  | running
  | polling_token
  | completed
  | error
deriving DecidableEq, Repr

/-- Type TokenStatus (src/api/token-validator.ts). -/
inductive TokenStatus where
  | valid
  | suspended
  | expired
  | invalid
  | error
deriving DecidableEq, Repr

/-- Interface TokenInfo. -/
structure TokenInfo where
  accessToken : String
  refreshToken : String
  expiresIn : Nat
  tokenType : String
deriving DecidableEq, Repr

/-- Interface AWSBuilderIDAccount. -/
structure AWSBuilderIDAccount where
  email : String
  password : String
  fullName : String
deriving DecidableEq, Repr

/-- Interface SessionState (fields not touched by the claims — tabId, oidc
info, timestamps — are omitted). -/
structure SessionState where
  id : Nat
  status : SessionStatus
  account : AWSBuilderIDAccount
  token : Option TokenInfo
  tokenStatus : Option TokenStatus
  error : Option String
deriving DecidableEq, Repr

/-- Method SessionManager.createSession: registers a brand-new pending session. -/
def createSessionMgr (reg : List SessionState) (account : AWSBuilderIDAccount) :
    SessionState × List SessionState :=
  let s : SessionState :=
    { id := reg.length, status := .pending, account := account,
      token := none, tokenStatus := none, error := none }
  (s, reg ++ [s])

/-- Method SessionManager.updateSession: merge updates into the session with
the given id (`f` is the spread `{...session, ...updates}`). -/
def updateSessionMgr (reg : List SessionState) (id : Nat)
    (f : SessionState → SessionState) : List SessionState :=
  reg.map (fun s => if s.id = id then f s else s)

/-- Method SessionManager.getSession. -/
def getSessionMgr (reg : List SessionState) (id : Nat) : Option SessionState :=
  reg.find? (fun s => s.id == id)

/-- Method SessionManager.getSessionsByStatus. -/
def getSessionsByStatus (reg : List SessionState) (st : SessionStatus) : List SessionState :=
  reg.filter (fun s => s.status == st)

/-- Method SessionManager.getCompletedCount. -/
def getCompletedCount (reg : List SessionState) : Nat :=
  (getSessionsByStatus reg .completed).length

/-- Method SessionManager.getFailedCount. -/
def getFailedCount (reg : List SessionState) : Nat :=
  (getSessionsByStatus reg .error).length

/-- Method SessionManager.getRunningCount. -/
def getRunningCount (reg : List SessionState) : Nat :=
  (getSessionsByStatus reg .running).length + (getSessionsByStatus reg .polling_token).length

/-- Status union of BatchProgress. -/
inductive BatchStatus where
  | idle
  | running
  | completed
  | error
deriving DecidableEq, Repr

/-- Interface BatchProgress. -/
structure BatchProgress where
  totalTarget : Nat
  totalRegistered : Nat
  totalFailed : Nat
  status : BatchStatus
  sessions : List SessionState
deriving DecidableEq, Repr

/-- Function getProgress (orchestrator.ts). -/
def getProgress (reg : List SessionState) (totalTarget : Nat) : BatchProgress :=
  let completed := getCompletedCount reg
  let failed := getFailedCount reg
  let running := getRunningCount reg
  let status : BatchStatus :=
    if running > 0 then .running
    else if completed + failed = totalTarget ∧ 0 < totalTarget then .completed
    else .idle
  { totalTarget := totalTarget, totalRegistered := completed, totalFailed := failed,
    status := status, sessions := reg }

/-! Section: registration worker (src/automation/aws-builder-id/worker.ts). -/

/-- Class IPBlockedError vs every other thrown Error. -/
inductive WorkerError where
  | ipBlocked (msg : String)
  | fatal (msg : String)
deriving DecidableEq, Repr

/-- JS `error.message` of a caught fault, recorded verbatim on the session. -/
def workerErrorMsg : WorkerError → String
  | .ipBlocked m => m
  | .fatal m => m

/-- Config BROWSER_MODE. -/
inductive BrowserMode where
  | roxy
  | localMode
deriving DecidableEq, Repr

/-- Outcome of the externally-failing body of registrationWorker's try block:
either a fault before the browser is launched (OIDC handshake, launch
itself), a fault after it (stuck page, polling loop, OTP exhaustion, token
polling/validation), or completion with a token and its validation status. -/
inductive FlowOutcome where
  | failBeforeLaunch (e : WorkerError)
  | failAfterLaunch (e : WorkerError)
  | finished (token : TokenInfo) (tokenStatus : TokenStatus)
deriving DecidableEq, Repr

/-- Observable outcome of one registrationWorker invocation. -/
structure WorkerRun where
  registry : List SessionState
  browserOpened : Bool
  browserClosed : Bool
  outcome : Except WorkerError SessionState
deriving Repr

/-- Browser-close guard on both exit paths of registrationWorker:
`BROWSER_MODE === "local" && localSession` or `browser && browserId`. -/
def closesBrowser (mode : BrowserMode) (browserId : String) : Bool :=
  match mode with
  | .localMode => true
  | .roxy => !browserId.isEmpty

/-- Return value of the catch branch: rethrow an IPBlockedError, otherwise
return the error-marked session looked up from the registry. -/
def workerErrorOutcome (reg : List SessionState) (id : Nat) (e : WorkerError) :
    Except WorkerError SessionState :=
  match e with
  | .ipBlocked m => .error (.ipBlocked m)
  | .fatal _ =>
    match getSessionMgr reg id with
    | some fs => .ok fs
    | none => .error (.fatal ("Session not found after error"))

/-- Function registrationWorker: registers a fresh session, marks it running,
runs the flow, and on any fault marks the session error with the fault's
message, closes the browser it opened, and rethrows only IPBlockedError. -/
def registrationWorker (mode : BrowserMode) (browserId : String)
    (reg : List SessionState) (account : AWSBuilderIDAccount) (flow : FlowOutcome) :
    WorkerRun :=
  let created := createSessionMgr reg account
  let s0 := created.1
  let reg1 := updateSessionMgr created.2 s0.id (fun s => { s with status := .running })
  match flow with
  | .failBeforeLaunch e =>
    let reg2 := updateSessionMgr reg1 s0.id
      (fun s => { s with status := .error, error := some (workerErrorMsg e) })
    { registry := reg2, browserOpened := false, browserClosed := false,
      outcome := workerErrorOutcome reg2 s0.id e }
  | .failAfterLaunch e =>
    let reg2 := updateSessionMgr reg1 s0.id
      (fun s => { s with status := .error, error := some (workerErrorMsg e) })
    { registry := reg2, browserOpened := true, browserClosed := closesBrowser mode browserId,
      outcome := workerErrorOutcome reg2 s0.id e }
  | .finished token tokenStatus =>
    let reg2 := updateSessionMgr reg1 s0.id (fun s => { s with status := .polling_token })
    let reg3 := updateSessionMgr reg2 s0.id
      (fun s => { s with token := some token, tokenStatus := some tokenStatus, status := .completed })
    { registry := reg3, browserOpened := true, browserClosed := closesBrowser mode browserId,
      outcome :=
        match getSessionMgr reg3 s0.id with
        | some fs => .ok fs
        | none => .error (.fatal ("Session not found after completion")) }

/-! Section: fatal page-error banner handling inside registrationWorker's
polling loop (session worker, lines around the `pageErrors` evaluate). -/

/-- One batched banner snapshot: the generic request-error text and the two
expired-session texts. -/
structure PageErrors where
  awsError : Bool
  sessionExpired : Bool
deriving DecidableEq, Repr

/-- Detection guard: `pageErrors.sessionExpired || (result.pageType !==
"verify" && pageErrors.awsError)`. -/
def pageErrorGuard (pageType : PageType) (pe : PageErrors) : Bool :=
  pe.sessionExpired || (!(pageType == PageType.verify) && pe.awsError)

/-- Both banners absent after a resubmission click. -/
def pageErrorsClear (pe : PageErrors) : Bool :=
  !pe.sessionExpired && !pe.awsError

/-- Constant maxPageErrorRetries. -/
def maxPageErrorRetries : Nat := 5

/-- Resubmission loop (`for (let per = 1; per <= maxPageErrorRetries; per++)`):
each iteration re-clicks a primary action button and re-reads the banners
(oracle `recheck`, indexed by the resubmission attempt number).  Returns
whether the banner cleared and how many resubmission attempts ran. -/
def resubmitLoop (recheck : Nat → PageErrors) : Nat → Nat → Bool × Nat
  | 0, _ => (false, 0)
  | f + 1, per =>
    if pageErrorsClear (recheck per) then (true, 1)
    else
      let rest := resubmitLoop recheck f (per + 1)
      (rest.1, rest.2 + 1)

/-- Banner handling step of one polling iteration: on detection, resubmit up
to five times; if never cleared, raise IPBlockedError (expired-session
message when the initial snapshot showed the expired banner, else the
generic message); otherwise continue normally. -/
def handleFatalPageErrors (pageType : PageType) (pe : PageErrors)
    (recheck : Nat → PageErrors) : Except WorkerError Unit × Nat :=
  if pageErrorGuard pageType pe then
    let resolved := resubmitLoop recheck maxPageErrorRetries 1
    if resolved.1 then (.ok (), resolved.2)
    else
      (.error (.ipBlocked (if pe.sessionExpired then ("AWS error: signup session expired")
          else ("AWS error: likely IP blocked"))),
       resolved.2)
  else (.ok (), 0)

/-! Section: per-account retry loop of processEmailWorker (orchestrator.ts). -/

/-- Externally visible worker-loop actions, in order of occurrence. -/
inductive WorkerEvent where
  | acquireProxy (ok : Bool)
  | resetProfile
  | invokeSession (retryCount : Nat)
deriving DecidableEq, Repr

/-- How the per-account while loop ended. -/
inductive AccountResult where
  | done (s : SessionState)
  | skippedNoProxy
  | gaveUp (msg : String)
deriving DecidableEq, Repr

/-- Constant maxRetries in processEmailWorker. -/
def maxRetries : Nat := 3

/-- The `while (retryCount <= maxRetries && !success)` loop, by recursion on
the remaining loop iterations (the wrapper supplies `fuel = maxRetries + 1`).
`flows k` is the fate of the session invocation made at retryCount `k`;
`proxyOk k` is whether a fresh proxy is found for retry `k`.  The model
covers the gmail / simplelogin / mailtm providers (the freemail provider
regenerates a mailbox between the profile reset and the invocation). -/
def accountLoopAux (flows : Nat → FlowOutcome) (proxyOk : Nat → Bool)
    (useEnvProxy roxy : Bool) (mode : BrowserMode) (browserId : String)
    (account : AWSBuilderIDAccount) :
    Nat → Nat → List SessionState → List WorkerEvent × List SessionState × AccountResult
  | 0, _, reg => ([], reg, .gaveUp ("retry loop exhausted"))
  | fuel + 1, retryCount, reg =>
    if retryCount > 0 && useEnvProxy && !proxyOk retryCount then
      ([.acquireProxy false], reg, .skippedNoProxy)
    else
      let pre : List WorkerEvent :=
        if retryCount > 0 && useEnvProxy then
          .acquireProxy true :: (if roxy then [.resetProfile] else [])
        else []
      let r := registrationWorker mode browserId reg account (flows retryCount)
      match r.outcome with
      | .ok s => (pre ++ [.invokeSession retryCount], r.registry, .done s)
      | .error (.ipBlocked m) =>
        if retryCount < maxRetries then
          let rest := accountLoopAux flows proxyOk useEnvProxy roxy mode browserId account
            fuel (retryCount + 1) r.registry
          (pre ++ .invokeSession retryCount :: rest.1, rest.2.1, rest.2.2)
        else (pre ++ [.invokeSession retryCount], r.registry, .gaveUp m)
      | .error (.fatal m) => (pre ++ [.invokeSession retryCount], r.registry, .gaveUp m)

/-- Per-account portion of processEmailWorker, from the retry-loop entry. -/
def accountLoop (flows : Nat → FlowOutcome) (proxyOk : Nat → Bool)
    (useEnvProxy roxy : Bool) (mode : BrowserMode) (browserId : String)
    (account : AWSBuilderIDAccount) (reg : List SessionState) :
    List WorkerEvent × List SessionState × AccountResult :=
  accountLoopAux flows proxyOk useEnvProxy roxy mode browserId account
    (maxRetries + 1) 0 reg

/-- The per-worker `for (let i = 1; i <= countPerEmail; i++)` account loop:
each account first acquires its proxy (skip the account when none), then
runs the retry loop; iteration always continues with the next account.
`flows i k` is the fate of account `i`'s invocation at retryCount `k`. -/
def workerLoopAux (flows : Nat → Nat → FlowOutcome) (proxyInit : Nat → Bool)
    (proxyRetry : Nat → Nat → Bool) (useEnvProxy roxy : Bool) (mode : BrowserMode)
    (browserId : String) :
    List AWSBuilderIDAccount → Nat → List SessionState →
      List (List WorkerEvent × AccountResult) × List SessionState
  | [], _, reg => ([], reg)
  | account :: rest, i, reg =>
    if useEnvProxy && !proxyInit i then
      let r := workerLoopAux flows proxyInit proxyRetry useEnvProxy roxy mode browserId
        rest (i + 1) reg
      (([.acquireProxy false], .skippedNoProxy) :: r.1, r.2)
    else
      let initEvents : List WorkerEvent := if useEnvProxy then [.acquireProxy true] else []
      let a := accountLoop (flows i) (proxyRetry i) useEnvProxy roxy mode browserId account reg
      let r := workerLoopAux flows proxyInit proxyRetry useEnvProxy roxy mode browserId
        rest (i + 1) a.2.1
      ((initEvents ++ a.1, a.2.2) :: r.1, r.2)

/-! Section: exportResults (orchestrator.ts). -/

/-- Filter predicate of `validAccounts`. -/
def bucketValid (s : SessionState) : Bool :=
  s.status == SessionStatus.completed && s.token.isSome
    && s.tokenStatus == some TokenStatus.valid

/-- Filter predicate of `suspendedAccounts`. -/
def bucketSuspended (s : SessionState) : Bool :=
  s.status == SessionStatus.completed && s.tokenStatus == some TokenStatus.suspended

/-- Filter predicate of `expiredAccounts`. -/
def bucketExpired (s : SessionState) : Bool :=
  s.status == SessionStatus.completed && s.tokenStatus == some TokenStatus.expired

/-- Filter predicate of `invalidAccounts`. -/
def bucketInvalid (s : SessionState) : Bool :=
  s.status == SessionStatus.completed
    && (s.tokenStatus == some TokenStatus.invalid || s.tokenStatus == some TokenStatus.error)

/-- Filter predicate of `failedAccounts`. -/
def bucketFailed (s : SessionState) : Bool :=
  s.status == SessionStatus.error

/-- The five buckets written by exportResults. -/
structure ExportBuckets where
  valid : List SessionState
  suspended : List SessionState
  expired : List SessionState
  invalid : List SessionState
  failed : List SessionState
deriving DecidableEq, Repr

/-- Function exportResults, restricted to its bucket partitioning (the JSON
document layout and the fire-and-forget upload are presentation). -/
def exportResults (progress : BatchProgress) : ExportBuckets :=
  { valid := progress.sessions.filter bucketValid,
    suspended := progress.sessions.filter bucketSuspended,
    expired := progress.sessions.filter bucketExpired,
    invalid := progress.sessions.filter bucketInvalid,
    failed := progress.sessions.filter bucketFailed }

/-- Total size of the five buckets. -/
def bucketsTotal (b : ExportBuckets) : Nat :=
  b.valid.length + b.suspended.length + b.expired.length + b.invalid.length + b.failed.length

/-- Declarative ordered table equivalent of detectPageType: the actual
priority order of the source, with the four URL-substring checks evaluated
before every DOM-indicator check. -/
def classifyTable : List ((JStr → DomState → Bool) × PageType) :=
  [(fun url _ => jsIncludes url ("awsapps.com".toList)
      && jsIncludes url ("#/device?user_code=".toList), .device_confirm),
   (fun url _ => jsIncludes url ("verify-otp".toList) || jsIncludes url ("/verification".toList)
      || jsIncludes url ("verifyEmail".toList), .verify),
   (fun url _ => jsIncludes url ("/signup?registrationCode=".toList), .password),
   (fun url _ => jsIncludes url ("#/signup/start".toList), .name),
   (fun _ dom => dom.hasConfirmBtn, .device_confirm),
   (fun _ dom => jsIncludes dom.text ("Confirm and continue".toList)
      || jsIncludes dom.text ("confirm this code".toList), .device_confirm),
   (fun _ dom => jsIncludes dom.text ("Request approved".toList)
      || jsIncludes dom.text ("You can close this window".toList), .complete),
   (fun _ dom => dom.hasAllowBtn, .allow_access),
   (fun url dom => (jsIncludes dom.text ("Allow access".toList)
      || jsIncludes dom.text ("allow access".toList))
      && jsIncludes url ("awsapps.com".toList), .allow_access),
   (fun _ dom => jsIncludes dom.text ("Verify your email".toList)
      || jsIncludes dom.text ("verification code".toList), .verify),
   (fun _ dom => jsIncludes dom.text ("Create your password".toList), .password),
   (fun _ dom => dom.hasPwdInputs, .password),
   (fun _ dom => dom.hasNameInput && dom.hasEmailInput, .signup),
   (fun url dom => jsIncludes url ("#/signup/enter-email".toList) && dom.hasNameInput, .signup),
   (fun _ dom => dom.hasNameInput && !dom.hasEmailInput, .name),
   (fun url dom => (jsIncludes url ("/login?workflowStateHandle=".toList)
      || jsIncludes dom.text ("Get started".toList)) && dom.hasEmailInput, .login)]

/-- Evaluation of an ordered (predicate, page type) table: the first matching
entry wins, falling back to unknown. -/
def firstMatch (url : JStr) (dom : DomState) :
    List ((JStr → DomState → Bool) × PageType) → PageType
  | [] => .unknown
  | entry :: rest => if entry.1 url dom then entry.2 else firstMatch url dom rest

/-- How many of the five bucket predicates hold of a session. -/
def bucketCount (s : SessionState) : Nat :=
  (bucketValid s).toNat + (bucketSuspended s).toNat + (bucketExpired s).toNat
    + (bucketInvalid s).toNat + (bucketFailed s).toNat

/-- Terminal session whose validation outcome was recorded: the condition
under which the five buckets cover a session. -/
def sessionBucketed (s : SessionState) : Prop :=
  s.status = SessionStatus.error
    ∨ (s.status = SessionStatus.completed ∧ s.tokenStatus.isSome
        ∧ (s.tokenStatus = some TokenStatus.valid → s.token.isSome = true))

/-- Whether a worker event is a Session invocation. -/
def isInvoke : WorkerEvent → Bool
  | .invokeSession _ => true
  | _ => false

/-- Number of Session invocations in an event trace. -/
def invokeCount (evs : List WorkerEvent) : Nat := (evs.filter isInvoke).length

/-- Whether a flow outcome makes registrationWorker rethrow IPBlockedError. -/
def flowRaisesIpBlocked : FlowOutcome → Bool
  | .failBeforeLaunch (.ipBlocked _) => true
  | .failAfterLaunch (.ipBlocked _) => true
  | _ => false

/-- Whether a flow outcome marks the session as failed. -/
def flowFails : FlowOutcome → Bool
  | .finished _ _ => false
  | _ => true

/-- The session record left by a failed registrationWorker invocation that
registered id `n`: error status with the fault message recorded verbatim. -/
def errSession (n : Nat) (account : AWSBuilderIDAccount) (msg : String) : SessionState :=
  { id := n, status := .error, account := account, token := none, tokenStatus := none,
    error := some msg }

/-- The session record left by a completed registrationWorker invocation that
registered id `n`. -/
def complSession (n : Nat) (account : AWSBuilderIDAccount) (token : TokenInfo)
    (ts : TokenStatus) : SessionState :=
  { id := n, status := .completed, account := account, token := some token,
    tokenStatus := some ts, error := none }

/-- The run of abandoned error sessions left by `d` consecutive IP-blocked
attempts, starting at registry id `base` and retryCount `rc`. -/
def errRun (account : AWSBuilderIDAccount) (msgs : Nat → String) :
    Nat → Nat → Nat → List SessionState
  | _, _, 0 => []
  | base, rc, d + 1 =>
    errSession base account (msgs rc) :: errRun account msgs (base + 1) (rc + 1) d

/-! Concrete sample inputs used by the witness theorems. -/

/-- Sample account candidate. -/
def sampleAccount : AWSBuilderIDAccount :=
  { email := "alice1@example.com", password := "Password1", fullName := "Alice Example" }

/-- Sample token. -/
def sampleToken : TokenInfo :=
  { accessToken := "at", refreshToken := "rt", expiresIn := 3600, tokenType := "Bearer" }

/-- Sample session still pending (as during an interrupted run). -/
def samplePendingSession : SessionState :=
  { id := 0, status := .pending, account := sampleAccount,
    token := none, tokenStatus := none, error := none }

/-- Sample progress snapshot holding one pending session. -/
def samplePendingProgress : BatchProgress :=
  { totalTarget := 1, totalRegistered := 0, totalFailed := 0, status := .running,
    sessions := [samplePendingSession] }

/-- Sample terminal sessions: one of each bucket. -/
def sampleTerminalSessions : List SessionState :=
  [{ id := 0, status := .completed, account := sampleAccount, token := some sampleToken,
     tokenStatus := some TokenStatus.valid, error := none },
   { id := 1, status := .completed, account := sampleAccount, token := some sampleToken,
     tokenStatus := some TokenStatus.suspended, error := none },
   { id := 2, status := .completed, account := sampleAccount, token := some sampleToken,
     tokenStatus := some TokenStatus.expired, error := none },
   { id := 3, status := .completed, account := sampleAccount, token := some sampleToken,
     tokenStatus := some TokenStatus.error, error := none },
   { id := 4, status := .error, account := sampleAccount, token := none,
     tokenStatus := none, error := some ("Registration flow timeout - max attempts reached") }]

/-- Sample progress snapshot of five terminal sessions. -/
def sampleTerminalProgress : BatchProgress :=
  { totalTarget := 5, totalRegistered := 4, totalFailed := 1, status := .completed,
    sessions := sampleTerminalSessions }

/-- Sample banner snapshot: generic request error only. -/
def samplePageErrorsGeneric : PageErrors := { awsError := true, sessionExpired := false }

/-- Sample banner snapshot: expired-session banner. -/
def samplePageErrorsExpired : PageErrors := { awsError := false, sessionExpired := true }

/-- Sample resubmission oracle: the banner clears on the third re-check. -/
def sampleRecheckClearAt3 : Nat → PageErrors :=
  fun k => if k < 3 then { awsError := true, sessionExpired := false }
    else { awsError := false, sessionExpired := false }

/-- Sample resubmission oracle: the banner never clears. -/
def sampleRecheckNever : Nat → PageErrors :=
  fun _ => { awsError := true, sessionExpired := false }

/-- Sample flow fates for a worker account: IP-blocked twice, then success. -/
def sampleFlows : Nat → FlowOutcome :=
  fun k => if k < 2 then .failAfterLaunch (.ipBlocked ("AWS error: likely IP blocked"))
    else .finished sampleToken TokenStatus.valid

/-- Sample flow fates: a fatal failure on the first attempt. -/
def sampleFlowsFatal : Nat → FlowOutcome :=
  fun _ => .failAfterLaunch (.fatal ("OTP verification failed after 5 retries"))

/-- Sample retry-proxy oracle: always finds a proxy. -/
def sampleProxyOk : Nat → Bool := fun _ => true

/-- Sample per-attempt IP-blocked messages. -/
def sampleMsgs : Nat → String := fun _ => ("AWS error: likely IP blocked")

/-- Sample URL carrying a verification-page URL indicator. -/
def sampleVerifyUrl : JStr := ("https://x.example/verify-otp".toList)

/-- Sample DOM snapshot showing only the completion banner. -/
def sampleCompleteDom : DomState :=
  { text := ("Request approved".toList), hasConfirmBtn := false, hasAllowBtn := false,
    hasPwdInputs := false, hasNameInput := false, hasEmailInput := false }

/-- Sample URL classified as the password page by its URL. -/
def samplePwdUrl : JStr := ("https://x.example/signup?registrationCode=abc".toList)

/-- Sample DOM snapshot with no indicators at all. -/
def sampleEmptyDom : DomState :=
  { text := [], hasConfirmBtn := false, hasAllowBtn := false,
    hasPwdInputs := false, hasNameInput := false, hasEmailInput := false }

/-- Sample device-confirmation URL. -/
def sampleDeviceUrl : JStr :=
  ("https://d.awsapps.com/start/#/device?user_code=ABCD".toList)

/-- Context that has already processed the password page of samplePwdUrl. -/
def sampleCtxDone : PageAutomationContext :=
  { processedPages := [("password:https://x.example/signup".toList)],
    cookiePopupHandled := true }

/-- Context that has already processed the device-confirmation page of
sampleDeviceUrl (dedup must still not apply to it). -/
def sampleCtxDeviceDone : PageAutomationContext :=
  { processedPages := [getPageId sampleDeviceUrl PageType.device_confirm],
    cookiePopupHandled := true }

/-- Sample OTP provider: yields a six-digit code on the 10th poll only. -/
def sampleTryFetch : Nat → Except String OTPFetchResult :=
  fun k =>
    if k = 10 then .ok { success := true, code := some ("228276"), error := none }
    else .ok { success := false, code := none, error := some ("No messages found yet") }

/-- Sample OTP provider that never yields a code. -/
def sampleTryFetchNever : Nat → Except String OTPFetchResult :=
  fun _ => .ok { success := false, code := none, error := some ("No messages found yet") }

/-- Handler oracle where every page action succeeds. -/
def handlerAllTrue : PageType → Bool := fun _ => true

/-- Handler oracle where every page action fails. -/
def handlerAllFalse : PageType → Bool := fun _ => false

/-- Sample fraud-check response: residential, score 25. -/
def sampleFraudOk : FraudCheckResult :=
  { ip := "1.2.3.4", fraudScore := 25, isResidential := true, country := "United States",
    countryCode := "US", city := "Dallas", timezone := "America/Chicago" }

/-- Sample fraud-check response with a different IP. -/
def sampleFraudFresh : FraudCheckResult :=
  { ip := "5.6.7.8", fraudScore := 10, isResidential := true, country := "United States",
    countryCode := "US", city := "Austin", timezone := "America/Chicago" }

/-- Sample fraud endpoint: answers only on port 12. -/
def sampleCheck : Nat → Option FraudCheckResult :=
  fun p => if p = 12 then some sampleFraudOk else none

/-- Sample fraud endpoint: answers only on port 11. -/
def sampleCheckFresh : Nat → Option FraudCheckResult :=
  fun p => if p = 11 then some sampleFraudFresh else none

/-- Sample proxy credentials. -/
def sampleBase : ProxyBase :=
  { host := "proxy.example.com", username := "user", password := "pass" }

/-- Sample rotation state with an empty used-IP set. -/
def sampleState : ProxyState := { portCounter := 10, usedIps := [] }

/-- Sample rotation state that has already used 1.2.3.4. -/
def sampleStateUsed : ProxyState := { portCounter := 10, usedIps := ["1.2.3.4"] }

/-! Theorems.  Helper lemmas first, then one theorem (plus witness or
counterexample) per claim. -/

/-- Splitting a bounded quantifier over `n + 1` into its first instance and
the shifted remainder. -/
theorem forall_lt_shift (P : Nat → Prop) (n : Nat) :
    (∀ i, i < n + 1 → P i) ↔ P 0 ∧ ∀ i, i < n → P (i + 1) := by
  constructor
  · intro h
    exact ⟨h 0 (Nat.succ_pos n), fun i hi => h (i + 1) (Nat.succ_lt_succ hi)⟩
  · rintro ⟨h0, h⟩ i hi
    cases i with
    | zero => exact h0
    | succ j => exact h j (Nat.lt_of_succ_lt_succ hi)

/-- The validated-rotation loop returns none exactly when no candidate port
in the attempt window passes all four checks (the used-IP set never changes
while candidates are being rejected). -/
theorem getNextValidProxyLoop_none_iff (check : Nat → Option FraudCheckResult)
    (b : ProxyBase) :
    ∀ (n : Nat) (s : ProxyState),
      (getNextValidProxyLoop check b n s).1 = none ↔
        ∀ i, i < n → acceptsCandidate check s.usedIps (s.portCounter + i) = false := by
  intro n
  induction n with
  | zero => intro s; simp [getNextValidProxyLoop]
  | succ n ih =>
    intro s
    have harith : ∀ (c i : Nat), c + 1 + i = c + (i + 1) := fun c i => by omega
    rw [forall_lt_shift]
    simp only [getNextValidProxyLoop]
    cases hc : check s.portCounter with
    | none =>
      rw [ih { s with portCounter := s.portCounter + 1 }]
      simp only [Nat.add_zero]
      constructor
      · intro h
        refine ⟨by simp [acceptsCandidate, hc], ?_⟩
        intro i hi
        have := h i hi
        simpa [harith] using this
      · rintro ⟨-, h⟩ i hi
        simpa [harith] using h i hi
    | some r =>
      cases h1 : isIpUsed { s with portCounter := s.portCounter + 1 } r.ip with
      | true =>
        simp only [h1, if_true]
        rw [ih { s with portCounter := s.portCounter + 1 }]
        simp only [Nat.add_zero]
        have hrej : acceptsCandidate check s.usedIps s.portCounter = false := by
          simp only [isIpUsed] at h1
          simp only [acceptsCandidate, hc, h1, Bool.not_true, Bool.false_and]
        constructor
        · intro h
          refine ⟨hrej, ?_⟩
          intro i hi
          simpa [harith] using h i hi
        · rintro ⟨-, h⟩ i hi
          simpa [harith] using h i hi
      | false =>
        simp only [h1, Bool.false_eq_true, if_false]
        cases h2 : r.isResidential with
        | false =>
          simp only [h2, Bool.not_false, if_true]
          rw [ih { s with portCounter := s.portCounter + 1 }]
          simp only [Nat.add_zero]
          have hrej : acceptsCandidate check s.usedIps s.portCounter = false := by
            simp [acceptsCandidate, hc, h2]
          constructor
          · intro h
            refine ⟨hrej, ?_⟩
            intro i hi
            simpa [harith] using h i hi
          · rintro ⟨-, h⟩ i hi
            simpa [harith] using h i hi
        | true =>
          simp only [h2, Bool.not_true, Bool.false_eq_true, if_false]
          by_cases h3 : r.fraudScore > FRAUD_SCORE_THRESHOLD
          · rw [if_pos h3, ih { s with portCounter := s.portCounter + 1 }]
            simp only [Nat.add_zero]
            have hrej : acceptsCandidate check s.usedIps s.portCounter = false := by
              simp only [acceptsCandidate, hc, decide_eq_false (Int.not_le.mpr h3),
                Bool.and_false]
            constructor
            · intro h
              refine ⟨hrej, ?_⟩
              intro i hi
              simpa [harith] using h i hi
            · rintro ⟨-, h⟩ i hi
              simpa [harith] using h i hi
          · rw [if_neg h3]
            have hle : r.fraudScore ≤ FRAUD_SCORE_THRESHOLD := Int.not_lt.mp h3
            have hacc : acceptsCandidate check s.usedIps s.portCounter = true := by
              simp only [isIpUsed] at h1
              simp only [acceptsCandidate, hc, h1, h2, decide_eq_true hle,
                Bool.not_false, Bool.true_and, Bool.and_self]
            simp only [Nat.add_zero]
            constructor
            · intro h; cases h
            · rintro ⟨h0, -⟩
              rw [hacc] at h0
              cases h0

/-- A rejected candidate (failed check, used IP, non-residential, or score
above threshold) only advances the port counter. -/
theorem getNextValidProxyLoop_step_reject (check : Nat → Option FraudCheckResult)
    (b : ProxyBase) (n : Nat) (s : ProxyState)
    (h : acceptsCandidate check s.usedIps s.portCounter = false) :
    getNextValidProxyLoop check b (n + 1) s =
      getNextValidProxyLoop check b n { s with portCounter := s.portCounter + 1 } := by
  cases hc : check s.portCounter with
  | none => simp only [getNextValidProxyLoop, hc]
  | some r =>
    simp only [getNextValidProxyLoop, hc]
    simp only [acceptsCandidate, hc] at h
    have hIs : isIpUsed { s with portCounter := s.portCounter + 1 } r.ip
        = s.usedIps.contains r.ip := rfl
    cases hcont : s.usedIps.contains r.ip with
    | true =>
      rw [hIs, hcont, if_pos rfl]
    | false =>
      rw [hIs, hcont, if_neg (by simp)]
      rw [hcont] at h
      simp only [Bool.not_false, Bool.true_and] at h
      cases hres : r.isResidential with
      | false =>
        rw [if_pos (show (!false) = true from rfl)]
      | true =>
        rw [hres] at h
        simp only [Bool.true_and] at h
        have hgt : r.fraudScore > FRAUD_SCORE_THRESHOLD := by
          have := of_decide_eq_false h
          omega
        rw [if_neg (show ¬((!true) = true) from by simp), if_pos hgt]

/-- An accepted candidate ends the loop: the proxy on the current port is
returned with the check's locale metadata, and the IP is recorded as used. -/
theorem getNextValidProxyLoop_step_accept (check : Nat → Option FraudCheckResult)
    (b : ProxyBase) (n : Nat) (s : ProxyState) (r : FraudCheckResult)
    (hc : check s.portCounter = some r)
    (h : acceptsCandidate check s.usedIps s.portCounter = true) :
    getNextValidProxyLoop check b (n + 1) s =
      (some { proxy := { host := b.host, username := b.username, password := b.password,
                         port := s.portCounter },
              timezone := r.timezone, countryCode := r.countryCode },
       { portCounter := s.portCounter + 1, usedIps := r.ip :: s.usedIps }) := by
  simp only [acceptsCandidate, hc, Bool.and_eq_true, Bool.not_eq_true'] at h
  obtain ⟨⟨hcont, hres⟩, hdec⟩ := h
  have hle : r.fraudScore ≤ FRAUD_SCORE_THRESHOLD := of_decide_eq_true hdec
  have hIs : isIpUsed { s with portCounter := s.portCounter + 1 } r.ip
      = s.usedIps.contains r.ip := rfl
  simp only [getNextValidProxyLoop, hc]
  rw [hIs, hcont, if_neg (by simp), hres]
  simp only [Bool.not_true, if_neg (by simp : ¬(false = true))]
  rw [if_neg (Int.not_lt.mpr hle)]
  have hAdd : addUsedIp { portCounter := s.portCounter + 1, usedIps := s.usedIps } r.ip
      = { portCounter := s.portCounter + 1, usedIps := r.ip :: s.usedIps } := by
    simp only [addUsedIp, hcont]
    rw [if_neg (by simp)]
  rw [hAdd]

/-- The loop accepts exactly the first passing candidate in the attempt
window, returning its port and locale metadata and appending its IP to the
used set. -/
theorem getNextValidProxyLoop_first_accept (check : Nat → Option FraudCheckResult)
    (b : ProxyBase) :
    ∀ (i n : Nat) (s : ProxyState), i < n →
      acceptsCandidate check s.usedIps (s.portCounter + i) = true →
      (∀ j, j < i → acceptsCandidate check s.usedIps (s.portCounter + j) = false) →
      ∃ r, check (s.portCounter + i) = some r ∧
        getNextValidProxyLoop check b n s =
          (some { proxy := { host := b.host, username := b.username, password := b.password,
                             port := s.portCounter + i },
                  timezone := r.timezone, countryCode := r.countryCode },
           { portCounter := s.portCounter + i + 1, usedIps := r.ip :: s.usedIps }) := by
  intro i
  induction i with
  | zero =>
    intro n s hn hacc _
    obtain ⟨m, rfl⟩ : ∃ m, n = m + 1 := ⟨n - 1, by omega⟩
    simp only [Nat.add_zero] at hacc ⊢
    have hsome : ∃ r, check s.portCounter = some r := by
      cases hc : check s.portCounter with
      | none => simp [acceptsCandidate, hc] at hacc
      | some r => exact ⟨r, rfl⟩
    obtain ⟨r, hc⟩ := hsome
    exact ⟨r, hc, getNextValidProxyLoop_step_accept check b m s r hc hacc⟩
  | succ i ih =>
    intro n s hn hacc hmin
    obtain ⟨m, rfl⟩ : ∃ m, n = m + 1 := ⟨n - 1, by omega⟩
    have h0 : acceptsCandidate check s.usedIps s.portCounter = false := by
      simpa using hmin 0 (Nat.succ_pos i)
    rw [getNextValidProxyLoop_step_reject check b m s h0]
    have harith : s.portCounter + (i + 1) = s.portCounter + 1 + i := by omega
    obtain ⟨r, hr, heq⟩ :=
      ih m { s with portCounter := s.portCounter + 1 } (by omega)
        (by simpa [harith] using hacc)
        (by
          intro j hj
          have := hmin (j + 1) (Nat.succ_lt_succ hj)
          simpa [show s.portCounter + (j + 1) = s.portCounter + 1 + j from by omega]
            using this)
    refine ⟨r, by simpa [harith] using hr, ?_⟩
    rw [heq]
    simp only [harith]

/-- The used-IP set only ever grows across a validated-rotation call. -/
theorem getNextValidProxyLoop_usedIps_mono (check : Nat → Option FraudCheckResult)
    (b : ProxyBase) :
    ∀ (n : Nat) (s : ProxyState) (ip : String), ip ∈ s.usedIps →
      ip ∈ (getNextValidProxyLoop check b n s).2.usedIps := by
  intro n
  induction n with
  | zero => intro s ip h; simpa [getNextValidProxyLoop] using h
  | succ n ih =>
    intro s ip h
    by_cases hacc : acceptsCandidate check s.usedIps s.portCounter = true
    · obtain ⟨r, hc⟩ : ∃ r, check s.portCounter = some r := by
        cases hc : check s.portCounter with
        | none => simp [acceptsCandidate, hc] at hacc
        | some r => exact ⟨r, rfl⟩
      rw [getNextValidProxyLoop_step_accept check b n s r hc hacc]
      exact List.mem_cons_of_mem _ h
    · rw [getNextValidProxyLoop_step_reject check b n s (by simpa using hacc)]
      exact ih { s with portCounter := s.portCounter + 1 } ip h

/-- When a validated-rotation call returns a proxy, the fraud check at the
returned port produced a residential result at or below the threshold whose
IP was fresh, and exactly that IP was appended to the used set. -/
theorem getNextValidProxyLoop_accept_fresh (check : Nat → Option FraudCheckResult)
    (b : ProxyBase) :
    ∀ (n : Nat) (s : ProxyState) (res : ValidProxyResult) (s' : ProxyState),
      getNextValidProxyLoop check b n s = (some res, s') →
      ∃ r, check res.proxy.port = some r ∧ s.usedIps.contains r.ip = false ∧
        r.isResidential = true ∧ r.fraudScore ≤ FRAUD_SCORE_THRESHOLD ∧
        s'.usedIps = r.ip :: s.usedIps := by
  intro n
  induction n with
  | zero =>
    intro s res s' h
    simp [getNextValidProxyLoop] at h
  | succ n ih =>
    intro s res s' h
    by_cases hacc : acceptsCandidate check s.usedIps s.portCounter = true
    · obtain ⟨r, hc⟩ : ∃ r, check s.portCounter = some r := by
        cases hc : check s.portCounter with
        | none => simp [acceptsCandidate, hc] at hacc
        | some r => exact ⟨r, rfl⟩
      rw [getNextValidProxyLoop_step_accept check b n s r hc hacc] at h
      injection h with hres hst
      injection hres with hres
      subst hres
      subst hst
      simp only [acceptsCandidate, hc, Bool.and_eq_true, Bool.not_eq_true'] at hacc
      obtain ⟨⟨hcont, hresid⟩, hdec⟩ := hacc
      exact ⟨r, hc, hcont, hresid, of_decide_eq_true hdec, rfl⟩
    · rw [getNextValidProxyLoop_step_reject check b n s (by simpa using hacc)] at h
      exact ih { s with portCounter := s.portCounter + 1 } res s' h

/-- C1: validated rotation (`getNextValidProxy`) accepts a candidate port if
and only if the fraud check returns a result that is residential, scores at
most 30 and has an unused IP: it returns none exactly when no port in the
`maxAttempts` window passes all four checks, and on the first passing
candidate it returns the proxy on that port together with the check's
timezone and country-code metadata, adding the IP to the used-IP set. -/
theorem c1_validated_rotation (check : Nat → Option FraudCheckResult) (b : ProxyBase)
    (maxAttempts : Nat) (s : ProxyState) :
    ((getNextValidProxy check (some b) maxAttempts s).1 = none ↔
      ∀ i, i < maxAttempts → acceptsCandidate check s.usedIps (s.portCounter + i) = false)
    ∧ (∀ i, i < maxAttempts →
        acceptsCandidate check s.usedIps (s.portCounter + i) = true →
        (∀ j, j < i → acceptsCandidate check s.usedIps (s.portCounter + j) = false) →
        ∃ r, check (s.portCounter + i) = some r ∧
          getNextValidProxy check (some b) maxAttempts s =
            (some { proxy := { host := b.host, username := b.username, password := b.password,
                               port := s.portCounter + i },
                    timezone := r.timezone, countryCode := r.countryCode },
             { portCounter := s.portCounter + i + 1, usedIps := r.ip :: s.usedIps })) := by
  constructor
  · simpa [getNextValidProxy] using getNextValidProxyLoop_none_iff check b maxAttempts s
  · intro i hi hacc hmin
    simpa [getNextValidProxy] using
      getNextValidProxyLoop_first_accept check b i maxAttempts s hi hacc hmin

/-- Witness for C1: with the fraud endpoint answering `{fraudScore := 25,
isResidential := true, ip := 1.2.3.4}` on port 12 only, rotation from port
10 accepts the third candidate, returns it with its locale metadata, and
records the IP. -/
theorem c1_validated_rotation_witness :
    ∃ r, sampleCheck (sampleState.portCounter + 2) = some r ∧
      getNextValidProxy sampleCheck (some sampleBase) 5 sampleState =
        (some { proxy := { host := sampleBase.host, username := sampleBase.username,
                           password := sampleBase.password,
                           port := sampleState.portCounter + 2 },
                timezone := r.timezone, countryCode := r.countryCode },
         { portCounter := sampleState.portCounter + 2 + 1,
           usedIps := r.ip :: sampleState.usedIps }) :=
  (c1_validated_rotation sampleCheck sampleBase 5 sampleState).2 2 (by decide) (by decide)
    (by decide)

/-- C5: the used-IP set is append-only — plain rotation leaves it unchanged,
only the explicit reset empties it, and validated rotation only appends —
and within one run an accepted IP is always fresh: any IP already in the set
can never be the fraud-check IP of a port that validated rotation accepts
later. -/
theorem c5_used_ip_append_only (check : Nat → Option FraudCheckResult) (b : ProxyBase)
    (base : Option ProxyBase) (n : Nat) (s : ProxyState) (ip : String) :
    ((getNextProxy base s).2.usedIps = s.usedIps)
    ∧ ((resetUsedIps s).usedIps = [])
    ∧ (ip ∈ s.usedIps → ip ∈ (getNextValidProxy check base n s).2.usedIps)
    ∧ (∀ res s', getNextValidProxy check (some b) n s = (some res, s') →
        ∃ r, check res.proxy.port = some r ∧ r.ip ∉ s.usedIps ∧
          s'.usedIps = r.ip :: s.usedIps)
    ∧ (∀ res s', ip ∈ s.usedIps → getNextValidProxy check (some b) n s = (some res, s') →
        ∀ r, check res.proxy.port = some r → r.ip ≠ ip) := by
  refine ⟨?_, rfl, ?_, ?_, ?_⟩
  · cases base <;> rfl
  · intro h
    cases base with
    | none => simpa [getNextValidProxy] using h
    | some b' =>
      simpa [getNextValidProxy] using
        getNextValidProxyLoop_usedIps_mono check b' n s ip h
  · intro res s' heq
    simp only [getNextValidProxy] at heq
    obtain ⟨r, hr, hcont, -, -, hst⟩ :=
      getNextValidProxyLoop_accept_fresh check b n s res s' heq
    exact ⟨r, hr, by simpa using hcont, hst⟩
  · intro res s' hip heq r hr
    simp only [getNextValidProxy] at heq
    obtain ⟨r', hr', hcont, -, -, -⟩ :=
      getNextValidProxyLoop_accept_fresh check b n s res s' heq
    have : r' = r := by rw [hr'] at hr; injection hr
    subst this
    intro hcontra
    subst hcontra
    have : ¬ r'.ip ∈ s.usedIps := by simpa using hcont
    exact this hip

/-- Witness for C5: starting from a state that already used 1.2.3.4, a later
accepted proxy (found on port 11) reports a different IP. -/
theorem c5_used_ip_append_only_witness :
    ("1.2.3.4" ∈ sampleStateUsed.usedIps)
    ∧ getNextValidProxy sampleCheckFresh (some sampleBase) 5 sampleStateUsed =
        (some { proxy := { host := "proxy.example.com", username := "user",
                           password := "pass", port := 11 },
                timezone := "America/Chicago", countryCode := "US" },
         { portCounter := 12, usedIps := ["5.6.7.8", "1.2.3.4"] })
    ∧ sampleFraudFresh.ip ≠ "1.2.3.4" := by
  refine ⟨by decide, by decide, ?_⟩
  exact
    (c5_used_ip_append_only sampleCheckFresh sampleBase (some sampleBase) 5 sampleStateUsed
      ("1.2.3.4")).2.2.2.2
      { proxy := { host := "proxy.example.com", username := "user",
                   password := "pass", port := 11 },
        timezone := "America/Chicago", countryCode := "US" }
      { portCounter := 12, usedIps := ["5.6.7.8", "1.2.3.4"] }
      (by decide) (by decide) sampleFraudFresh (by decide)

/-- C4 counterexample: a page whose URL carries a verification indicator
(`verify-otp`) while its DOM shows the completion banner (`Request
approved`) is classified `verify` by detectPageType — the URL checks run
before any DOM check — whereas the claim's priority order (completion
banner before verification indicators) yields `complete`. -/
theorem c4_priority_counterexample :
    detectPageType sampleVerifyUrl sampleCompleteDom = PageType.verify
    ∧ claimOrderClassify sampleVerifyUrl sampleCompleteDom = PageType.complete
    ∧ PageType.verify ≠ PageType.complete := by
  refine ⟨by decide, by decide, by decide⟩

/-- C4 (amended): detectPageType is a pure function of the URL and one DOM
snapshot, equal to first-match evaluation of the fixed ordered table
`classifyTable` — four URL-substring checks first (device-confirm URL,
verification URLs, password-registration URL, signup-start URL → name),
then the DOM checks in order device-confirm, completion banner,
allow-access, verification, password, signup, name-only, login-only,
falling back to unknown. -/
theorem c4_classification_priority_order (url : JStr) (dom : DomState) :
    detectPageType url dom = firstMatch url dom classifyTable := rfl

/-- Helper: folding the split step over a separator-free prefix prepends it
to the head segment. -/
theorem foldr_jsSplitStep (c : Char) :
    ∀ (a x : JStr) (L : List JStr), c ∉ a →
      a.foldr (jsSplitStep c) (x :: L) = (a ++ x) :: L := by
  intro a
  induction a with
  | nil => intro x L _; rfl
  | cons y ys ih =>
    intro x L h
    have hy : y ≠ c := fun e => h (e ▸ List.mem_cons_self y ys)
    have hys : c ∉ ys := fun m => h (List.mem_cons_of_mem _ m)
    simp only [List.foldr_cons, ih x L hys, jsSplitStep, if_neg hy]
    simp

/-- Helper: splitting a string that does not contain the separator yields a
single segment. -/
theorem jsSplit_eq_single (c : Char) (a : JStr) (h : c ∉ a) : jsSplit c a = [a] := by
  have := foldr_jsSplitStep c a [] [] h
  simpa [jsSplit] using this

/-- Helper: splitting at the first separator occurrence peels off the prefix. -/
theorem jsSplit_append (c : Char) (a b : JStr) (h : c ∉ a) :
    jsSplit c (a ++ c :: b) = a :: jsSplit c b := by
  unfold jsSplit
  rw [List.foldr_append]
  have hstep : (c :: b).foldr (jsSplitStep c) [[]] = [] :: b.foldr (jsSplitStep c) [[]] := by
    simp [jsSplitStep]
  rw [hstep, foldr_jsSplitStep c a [] _ h, List.append_nil]

/-- Helper: page-id normalization for a URL with query string and fragment —
the query is dropped, the fragment kept. -/
theorem getPageId_query_hash (a q h : JStr) (t : PageType)
    (ha1 : '?' ∉ a) (ha2 : '#' ∉ a) (hq : '#' ∉ q) (hh : '#' ∉ h) (hne : h ≠ []) :
    getPageId (a ++ '?' :: (q ++ '#' :: h)) t = pageTypeStr t ++ ':' :: (a ++ '#' :: h) := by
  have hassoc : a ++ '?' :: (q ++ '#' :: h) = (a ++ '?' :: q) ++ '#' :: h := by simp
  have hnotin : '#' ∉ a ++ '?' :: q := by
    simp only [List.mem_append, List.mem_cons, not_or]
    exact ⟨ha2, by decide, hq⟩
  have hbase : (jsSplit '?' (a ++ '?' :: (q ++ '#' :: h))).headD [] = a := by
    rw [jsSplit_append _ _ _ ha1]; rfl
  have hhash : (jsSplit '#' (a ++ '?' :: (q ++ '#' :: h))).getD 1 [] = h := by
    rw [hassoc, jsSplit_append _ _ _ hnotin, jsSplit_eq_single _ _ hh]; rfl
  have hcontains : (a ++ '?' :: (q ++ '#' :: h)).contains '#' = true := by simp
  have hEmpty : h.isEmpty = false := by
    cases h with
    | nil => exact absurd rfl hne
    | cons x xs => rfl
  simp only [getPageId, hbase, hhash, hcontains, if_true, hEmpty]
  rfl

/-- Helper: page-id normalization for a URL with a query string and no
fragment — only the query is dropped. -/
theorem getPageId_query_only (a q : JStr) (t : PageType)
    (ha1 : '?' ∉ a) (ha2 : '#' ∉ a) (hq : '#' ∉ q) :
    getPageId (a ++ '?' :: q) t = pageTypeStr t ++ ':' :: a := by
  have hbase : (jsSplit '?' (a ++ '?' :: q)).headD [] = a := by
    rw [jsSplit_append _ _ _ ha1]; rfl
  have hnotin : '#' ∉ a ++ '?' :: q := by
    simp only [List.mem_append, List.mem_cons, not_or]
    exact ⟨ha2, by decide, hq⟩
  have hcontains : (a ++ '?' :: q).contains '#' = false := by simp [hnotin]
  simp only [getPageId, hbase, hcontains]
  rfl

/-- Helper: cookie-popup handling never touches the processed-page set. -/
theorem handleCookiePopup_processedPages (cookie : Bool) (ctx : PageAutomationContext) :
    (handleCookiePopup cookie ctx).processedPages = ctx.processedPages := by
  unfold handleCookiePopup
  split <;> rfl

/-- C8: for page types other than the two button-only ones, a successful
action records the (type, normalized URL) pair, and a later call classifying
an already-recorded pair short-circuits with the Already-processed marker,
independent of the action oracle; the pairs of device_confirm and
allow_access are never deduplicated, so their result is always the click
outcome; and the page id drops the query string while keeping the hash
fragment. -/
theorem c8_processed_page_dedup (url : JStr) (dom : DomState)
    (handler handler' : PageType → Bool) (cookie : Bool) (ctx : PageAutomationContext) :
    (detectPageType url dom ≠ PageType.device_confirm →
      detectPageType url dom ≠ PageType.allow_access →
      detectPageType url dom ≠ PageType.unknown →
      (processPage url dom handler cookie ctx).1.success = true →
      getPageId url (detectPageType url dom) ∈
        (processPage url dom handler cookie ctx).2.processedPages)
    ∧ (detectPageType url dom ≠ PageType.device_confirm →
      detectPageType url dom ≠ PageType.allow_access →
      getPageId url (detectPageType url dom) ∈ ctx.processedPages →
      (processPage url dom handler cookie ctx).1.error = some ("Already processed")
      ∧ processPage url dom handler cookie ctx = processPage url dom handler' cookie ctx)
    ∧ ((detectPageType url dom = PageType.device_confirm
        ∨ detectPageType url dom = PageType.allow_access) →
      (processPage url dom handler cookie ctx).1.success = handler (detectPageType url dom))
    ∧ (∀ (a q h : JStr) (t : PageType),
        '?' ∉ a → '#' ∉ a → '#' ∉ q → '#' ∉ h → h ≠ [] →
        getPageId (a ++ '?' :: (q ++ '#' :: h)) t = pageTypeStr t ++ ':' :: (a ++ '#' :: h))
    ∧ (∀ (a q : JStr) (t : PageType), '?' ∉ a → '#' ∉ a → '#' ∉ q →
        getPageId (a ++ '?' :: q) t = pageTypeStr t ++ ':' :: a) := by
  refine ⟨?_, ?_, ?_, getPageId_query_hash, getPageId_query_only⟩
  · simp only [processPage]
    generalize detectPageType url dom = t
    intro h1 h2 h3
    by_cases hmem : getPageId url t ∈ (handleCookiePopup cookie ctx).processedPages
    · have hskip : (decide (t = PageType.device_confirm)
          || decide (t = PageType.allow_access)) = false := by simp [h1, h2]
      simp [hskip, hmem]
    · have hmemF : (handleCookiePopup cookie ctx).processedPages.contains
          (getPageId url t) = false := by simp [hmem]
      simp only [hmemF, Bool.and_false, Bool.false_eq_true, if_false]
      intro hs
      cases t with
      | device_confirm => exact absurd rfl h1
      | allow_access => exact absurd rfl h2
      | unknown => exact absurd rfl h3
      | complete => simp
      | login => simp at hs ⊢; simp [hs]
      | signup => simp at hs ⊢; simp [hs]
      | name => simp at hs ⊢; simp [hs]
      | verify => simp at hs ⊢; simp [hs]
      | password => simp at hs ⊢; simp [hs]
  · intro h1 h2 hmem
    have hskip : (decide (detectPageType url dom = PageType.device_confirm)
        || decide (detectPageType url dom = PageType.allow_access)) = false := by
      simp [h1, h2]
    have hmem0 : getPageId url (detectPageType url dom) ∈
        (handleCookiePopup cookie ctx).processedPages := by
      rw [handleCookiePopup_processedPages]; exact hmem
    constructor
    · simp [processPage, hskip, hmem0]
    · simp [processPage, hskip, hmem0]
  · intro hor
    rcases hor with ht | ht <;> simp [processPage, ht]

/-- Witness for C8: the password page of a concrete registration-code URL,
once recorded, is skipped with the Already-processed marker whatever the
action oracle does, while the device-confirmation page is re-clicked (and
its failure reported) even though its pair is already recorded; a concrete
URL with query and fragment normalizes keeping only the fragment. -/
theorem c8_processed_page_dedup_witness :
    ((processPage samplePwdUrl sampleEmptyDom handlerAllTrue false sampleCtxDone).1.error
        = some ("Already processed")
      ∧ processPage samplePwdUrl sampleEmptyDom handlerAllTrue false sampleCtxDone
        = processPage samplePwdUrl sampleEmptyDom handlerAllFalse false sampleCtxDone)
    ∧ (processPage sampleDeviceUrl sampleEmptyDom handlerAllFalse false
        sampleCtxDeviceDone).1.success = handlerAllFalse PageType.device_confirm
    ∧ getPageId ("https://x.example/page?step=2#frag".toList) PageType.verify
        = ("verify:https://x.example/page#frag".toList) := by
  refine ⟨?_, ?_, by decide⟩
  · exact (c8_processed_page_dedup samplePwdUrl sampleEmptyDom handlerAllTrue handlerAllFalse
      false sampleCtxDone).2.1 (by decide) (by decide) (by decide)
  · have := (c8_processed_page_dedup sampleDeviceUrl sampleEmptyDom handlerAllFalse
      handlerAllFalse false sampleCtxDeviceDone).2.2.1 (by decide)
    simpa using this

/-- Helper: if every attempt before `K` fails and attempt `K` (inside the
window, within the budget) succeeds with a code, the polling loop stops at
`K`: one poll and one observer call per attempt up to `K`, and one interval
slept between consecutive polls. -/
theorem fetchMailtmOtpLoop_first_success (tryFetch : Nat → Except String OTPFetchResult)
    (maxAttempts intervalMs : Nat) :
    ∀ (fuel attempt K : Nat) (r : OTPFetchResult),
      attempt ≤ K → K < attempt + fuel → K ≤ maxAttempts →
      tryFetch K = .ok r → (r.success && otpCodeTruthy r) = true →
      (∀ j, attempt ≤ j → j < K → otpAttemptFails tryFetch j = true) →
      fetchMailtmOtpLoop tryFetch maxAttempts intervalMs fuel attempt =
        { result := r, polls := K + 1 - attempt,
          observed := List.range' attempt (K + 1 - attempt),
          sleptMs := (K - attempt) * intervalMs } := by
  intro fuel
  induction fuel with
  | zero => intro attempt K r h1 h2; omega
  | succ fuel ih =>
    intro attempt K r h1 h2 h3 hok hsucc hfails
    by_cases hAK : attempt = K
    · subst hAK
      simp only [fetchMailtmOtpLoop, hok, hsucc, if_true]
      have : attempt + 1 - attempt = 1 := by omega
      simp [this, Nat.sub_self]
    · have hlt : attempt < K := by omega
      have hfail := hfails attempt (Nat.le_refl attempt) hlt
      have hrest := ih (attempt + 1) K r (by omega) (by omega) h3 hok hsucc
        (fun j hj1 hj2 => hfails j (by omega) hj2)
      simp only [otpAttemptFails] at hfail
      cases hf : tryFetch attempt with
      | ok rj =>
        rw [hf] at hfail
        simp only [fetchMailtmOtpLoop, hf, hfail]
        rw [Bool.not_eq_true'] at hfail
        simp only [hfail, Bool.false_eq_true, if_false, hrest]
        have hobs : attempt :: List.range' (attempt + 1) (K + 1 - (attempt + 1))
            = List.range' attempt (K + 1 - attempt) := by
          have : K + 1 - attempt = (K + 1 - (attempt + 1)) + 1 := by omega
          rw [this]
          rfl
        have hslept : (K - (attempt + 1)) * intervalMs
              + (if attempt < maxAttempts then intervalMs else 0)
            = (K - attempt) * intervalMs := by
          rw [if_pos (by omega)]
          have : K - attempt = (K - (attempt + 1)) + 1 := by omega
          rw [this, Nat.succ_mul]
        have hpolls : (K + 1 - (attempt + 1)) + 1 = K + 1 - attempt := by omega
        rw [hpolls, hobs, hslept]
      | error e =>
        simp only [fetchMailtmOtpLoop, hf]
        rw [if_neg (by omega : ¬ attempt = maxAttempts)]
        rw [hrest]
        have hobs : attempt :: List.range' (attempt + 1) (K + 1 - (attempt + 1))
            = List.range' attempt (K + 1 - attempt) := by
          have : K + 1 - attempt = (K + 1 - (attempt + 1)) + 1 := by omega
          rw [this]
          rfl
        have hslept : (K - (attempt + 1)) * intervalMs + intervalMs
            = (K - attempt) * intervalMs := by
          have : K - attempt = (K - (attempt + 1)) + 1 := by omega
          rw [this, Nat.succ_mul]
        have hpolls : (K + 1 - (attempt + 1)) + 1 = K + 1 - attempt := by omega
        rw [hpolls, hobs, hslept]

/-- Helper: when every attempt in the window fails, the loop runs the whole
budget, polling once per attempt, and ends unsuccessfully. -/
theorem fetchMailtmOtpLoop_all_fail (tryFetch : Nat → Except String OTPFetchResult)
    (maxAttempts intervalMs : Nat) :
    ∀ (fuel attempt : Nat), attempt + fuel = maxAttempts + 1 →
      (∀ j, attempt ≤ j → j ≤ maxAttempts → otpAttemptFails tryFetch j = true) →
      (fetchMailtmOtpLoop tryFetch maxAttempts intervalMs fuel attempt).result.success = false
      ∧ (fetchMailtmOtpLoop tryFetch maxAttempts intervalMs fuel attempt).polls = fuel
      ∧ (fetchMailtmOtpLoop tryFetch maxAttempts intervalMs fuel attempt).observed
          = List.range' attempt fuel := by
  intro fuel
  induction fuel with
  | zero => intro attempt _ _; simp [fetchMailtmOtpLoop]
  | succ fuel ih =>
    intro attempt hw hfails
    have hfail := hfails attempt (Nat.le_refl attempt) (by omega)
    simp only [otpAttemptFails] at hfail
    cases hf : tryFetch attempt with
    | ok rj =>
      rw [hf] at hfail
      rw [Bool.not_eq_true'] at hfail
      have hrest := ih (attempt + 1) (by omega) (fun j hj1 hj2 => hfails j (by omega) hj2)
      simp only [fetchMailtmOtpLoop, hf, hfail, Bool.false_eq_true, if_false]
      refine ⟨hrest.1, by simp [hrest.2.1], ?_⟩
      simp only [hrest.2.2]
      rfl
    | error e =>
      by_cases hM : attempt = maxAttempts
      · have hf0 : fuel = 0 := by omega
        subst hf0
        subst hM
        simp [fetchMailtmOtpLoop, hf]
      · have hrest := ih (attempt + 1) (by omega) (fun j hj1 hj2 => hfails j (by omega) hj2)
        simp only [fetchMailtmOtpLoop, hf, if_neg hM]
        refine ⟨hrest.1, by simp [hrest.2.1], ?_⟩
        simp only [hrest.2.2]
        rfl

/-- C9: the OTP retriever fires the observer once per attempt and returns the
first successfully extracted code immediately — succeeding at attempt K it
polls exactly K times with K-1 interval sleeps — and only when all
maxAttempts polls fail does it return an unsuccessful bounded-attempts
result after exactly maxAttempts polls. -/
theorem c9_otp_first_code (tryFetch : Nat → Except String OTPFetchResult)
    (maxAttempts intervalMs K : Nat) (r : OTPFetchResult) :
    (1 ≤ K → K ≤ maxAttempts → tryFetch K = .ok r → (r.success && otpCodeTruthy r) = true →
      (∀ j, j < K → 1 ≤ j → otpAttemptFails tryFetch j = true) →
      fetchMailtmOtp tryFetch true maxAttempts intervalMs =
        { result := r, polls := K, observed := List.range' 1 K,
          sleptMs := (K - 1) * intervalMs })
    ∧ ((∀ j, j ≤ maxAttempts → 1 ≤ j → otpAttemptFails tryFetch j = true) →
      (fetchMailtmOtp tryFetch true maxAttempts intervalMs).result.success = false
      ∧ (fetchMailtmOtp tryFetch true maxAttempts intervalMs).polls = maxAttempts
      ∧ (fetchMailtmOtp tryFetch true maxAttempts intervalMs).observed
          = List.range' 1 maxAttempts) := by
  constructor
  · intro hK1 hK2 hok hsucc hfails
    have := fetchMailtmOtpLoop_first_success tryFetch maxAttempts intervalMs
      maxAttempts 1 K r hK1 (by omega) hK2 hok hsucc
      (fun j hj1 hj2 => hfails j hj2 hj1)
    simp only [fetchMailtmOtp, Bool.not_true, Bool.false_eq_true, if_false, this]
    have : K + 1 - 1 = K := by omega
    simp [this]
  · intro hfails
    have := fetchMailtmOtpLoop_all_fail tryFetch maxAttempts intervalMs
      maxAttempts 1 (by omega) (fun j hj1 hj2 => hfails j hj2 hj1)
    simpa [fetchMailtmOtp] using this

/-- Witness for C9: with maxAttempts 45 and interval 2000ms, a provider that
yields the code on the 10th poll makes the retriever succeed after exactly
10 polls (observer fired on attempts 1..10) and 18000ms of waiting, and a
provider that never yields makes it fail after exactly 45 polls. -/
theorem c9_otp_first_code_witness :
    fetchMailtmOtp sampleTryFetch true 45 2000 =
      { result := { success := true, code := some ("228276"), error := none },
        polls := 10, observed := List.range' 1 10, sleptMs := 18000 }
    ∧ (fetchMailtmOtp sampleTryFetchNever true 45 2000).result.success = false
    ∧ (fetchMailtmOtp sampleTryFetchNever true 45 2000).polls = 45 := by
  refine ⟨?_, ?_, ?_⟩
  · have := (c9_otp_first_code sampleTryFetch 45 2000 10
      { success := true, code := some ("228276"), error := none }).1
      (by decide) (by decide) (by rfl) (by decide) (by decide)
    simpa using this
  · exact ((c9_otp_first_code sampleTryFetchNever 45 2000 1
      { success := false, code := none, error := none }).2 (by decide)).1
  · exact ((c9_otp_first_code sampleTryFetchNever 45 2000 1
      { success := false, code := none, error := none }).2 (by decide)).2.1

/-- Helper: a session satisfies at most one of the five bucket predicates. -/
theorem bucketCount_le_one (s : SessionState) : bucketCount s ≤ 1 := by
  rcases s with ⟨id, st, acc, tok, ts, err⟩
  rcases tok with - | tok <;> rcases st <;> rcases ts with - | ts <;> (try rcases ts) <;>
    simp only [bucketCount, bucketValid, bucketSuspended, bucketExpired, bucketInvalid,
      bucketFailed, Option.isSome_some, Option.isSome_none] <;>
    decide

/-- Helper: a terminal session with a recorded validation outcome lands in
exactly one bucket. -/
theorem bucketCount_eq_one (s : SessionState) (h : sessionBucketed s) : bucketCount s = 1 := by
  rcases s with ⟨id, st, acc, tok, ts, err⟩
  simp only [sessionBucketed] at h
  revert h
  rcases tok with - | tok <;> rcases st <;> rcases ts with - | ts <;> (try rcases ts) <;>
    simp only [bucketCount, bucketValid, bucketSuspended, bucketExpired, bucketInvalid,
      bucketFailed, Option.isSome_some, Option.isSome_none] <;>
    decide

/-- Helper: the length of filtering a cons. -/
theorem length_filter_cons_toNat (p : SessionState → Bool) (a : SessionState)
    (l : List SessionState) :
    (List.filter p (a :: l)).length = (p a).toNat + (List.filter p l).length := by
  cases hpa : p a <;> simp [List.filter_cons, hpa, Nat.add_comm]

/-- Helper: the five bucket sizes sum to the list length when every element
is bucketed. -/
theorem bucketsTotal_eq_length (ss : List SessionState)
    (h : ∀ s ∈ ss, sessionBucketed s) :
    (ss.filter bucketValid).length + (ss.filter bucketSuspended).length
      + (ss.filter bucketExpired).length + (ss.filter bucketInvalid).length
      + (ss.filter bucketFailed).length = ss.length := by
  induction ss with
  | nil => simp
  | cons a l ih =>
    have ha := bucketCount_eq_one a (h a (List.mem_cons_self a l))
    have hl := ih (fun s hs => h s (List.mem_cons_of_mem _ hs))
    rw [length_filter_cons_toNat, length_filter_cons_toNat, length_filter_cons_toNat,
      length_filter_cons_toNat, length_filter_cons_toNat]
    simp only [bucketCount] at ha
    simp only [List.length_cons]
    omega

/-- Helper: the five bucket predicates are pairwise incompatible. -/
theorem buckets_disjoint_pred (s : SessionState) :
    (bucketValid s = true → bucketSuspended s = false ∧ bucketExpired s = false
      ∧ bucketInvalid s = false ∧ bucketFailed s = false)
    ∧ (bucketSuspended s = true → bucketExpired s = false ∧ bucketInvalid s = false
      ∧ bucketFailed s = false)
    ∧ (bucketExpired s = true → bucketInvalid s = false ∧ bucketFailed s = false)
    ∧ (bucketInvalid s = true → bucketFailed s = false) := by
  have hcount := bucketCount_le_one s
  simp only [bucketCount] at hcount
  cases hv : bucketValid s <;> cases hsu : bucketSuspended s <;> cases he : bucketExpired s <;>
    cases hi : bucketInvalid s <;> cases hf : bucketFailed s <;>
    simp [hv, hsu, he, hi, hf] at hcount ⊢

/-- C7 counterexample: on a progress snapshot holding one still-pending
session (as exported during an interrupted run) the five buckets are all
empty, so their sizes sum to 0, not to the session count 1. -/
theorem c7_partition_counterexample :
    bucketsTotal (exportResults samplePendingProgress) = 0
    ∧ samplePendingProgress.sessions.length = 1
    ∧ bucketsTotal (exportResults samplePendingProgress)
        ≠ samplePendingProgress.sessions.length := by
  refine ⟨by decide, by decide, by decide⟩

/-- C7 (amended): the five exportResults buckets are always pairwise
disjoint — no session appears in two buckets — and their sizes sum to the
total session count exactly under the amendment's proviso that every session
is terminal (completed or error) with a recorded token-validation status on
completed sessions (and a token present when that status is valid); a
pending or running session (possible in an interrupted run's export) falls
into no bucket. -/
theorem c7_export_buckets (p : BatchProgress) :
    (∀ s : SessionState,
      (s ∈ (exportResults p).valid →
        s ∉ (exportResults p).suspended ∧ s ∉ (exportResults p).expired
          ∧ s ∉ (exportResults p).invalid ∧ s ∉ (exportResults p).failed)
      ∧ (s ∈ (exportResults p).suspended →
        s ∉ (exportResults p).expired ∧ s ∉ (exportResults p).invalid
          ∧ s ∉ (exportResults p).failed)
      ∧ (s ∈ (exportResults p).expired →
        s ∉ (exportResults p).invalid ∧ s ∉ (exportResults p).failed)
      ∧ (s ∈ (exportResults p).invalid → s ∉ (exportResults p).failed))
    ∧ ((∀ s ∈ p.sessions, sessionBucketed s) →
      bucketsTotal (exportResults p) = p.sessions.length) := by
  constructor
  · intro s
    obtain ⟨d1, d2, d3, d4⟩ := buckets_disjoint_pred s
    simp only [exportResults, List.mem_filter]
    refine ⟨?_, ?_, ?_, ?_⟩
    · rintro ⟨-, h⟩
      obtain ⟨f1, f2, f3, f4⟩ := d1 h
      exact ⟨fun hc => by simp [f1] at hc, fun hc => by simp [f2] at hc,
        fun hc => by simp [f3] at hc, fun hc => by simp [f4] at hc⟩
    · rintro ⟨-, h⟩
      obtain ⟨f1, f2, f3⟩ := d2 h
      exact ⟨fun hc => by simp [f1] at hc, fun hc => by simp [f2] at hc,
        fun hc => by simp [f3] at hc⟩
    · rintro ⟨-, h⟩
      obtain ⟨f1, f2⟩ := d3 h
      exact ⟨fun hc => by simp [f1] at hc, fun hc => by simp [f2] at hc⟩
    · rintro ⟨-, h⟩
      exact fun hc => by simp [d4 h] at hc
  · intro h
    simpa [exportResults, bucketsTotal] using bucketsTotal_eq_length p.sessions h

/-- Witness for C7: on five terminal sessions, one per bucket, the sizes sum
to five; the suspended session of that snapshot is in no other bucket. -/
theorem c7_export_buckets_witness :
    bucketsTotal (exportResults sampleTerminalProgress) = 5
    ∧ sampleTerminalSessions.length = 5 := by
  constructor
  · have := (c7_export_buckets sampleTerminalProgress).2
      (by
        intro s hs
        simp only [sampleTerminalProgress, sampleTerminalSessions, List.mem_cons,
          List.not_mem_nil, or_false] at hs
        rcases hs with rfl | rfl | rfl | rfl | rfl <;> simp [sessionBucketed])
    simpa using this
  · decide

/-- Helper: the resubmission loop stops at the first re-check on which both
banners are gone, having clicked once per attempt so far. -/
theorem resubmitLoop_first_clear (recheck : Nat → PageErrors) :
    ∀ (fuel per k : Nat), per ≤ k → k < per + fuel →
      pageErrorsClear (recheck k) = true →
      (∀ j, per ≤ j → j < k → pageErrorsClear (recheck j) = false) →
      resubmitLoop recheck fuel per = (true, k + 1 - per) := by
  intro fuel
  induction fuel with
  | zero => intro per k h1 h2; omega
  | succ fuel ih =>
    intro per k h1 h2 hclear hmin
    by_cases hpk : per = k
    · subst hpk
      simp only [resubmitLoop, hclear, if_true]
      have h1eq : per + 1 - per = 1 := by omega
      rw [h1eq]
    · have hlt : per < k := by omega
      have hfail := hmin per (Nat.le_refl per) hlt
      have hrest := ih (per + 1) k (by omega) (by omega) hclear
        (fun j hj1 hj2 => hmin j (by omega) hj2)
      simp only [resubmitLoop, hfail, Bool.false_eq_true, if_false, hrest]
      have : k + 1 - (per + 1) + 1 = k + 1 - per := by omega
      rw [this]

/-- Helper: when no re-check clears the banners, the loop reports failure
after using its whole budget. -/
theorem resubmitLoop_all_fail (recheck : Nat → PageErrors) :
    ∀ (fuel per : Nat),
      (∀ j, per ≤ j → j < per + fuel → pageErrorsClear (recheck j) = false) →
      resubmitLoop recheck fuel per = (false, fuel) := by
  intro fuel
  induction fuel with
  | zero => intro per _; rfl
  | succ fuel ih =>
    intro per h
    have hfail := h per (Nat.le_refl per) (by omega)
    have hrest := ih (per + 1) (fun j hj1 hj2 => h j (by omega) (by omega))
    simp only [resubmitLoop, hfail, Bool.false_eq_true, if_false, hrest]

/-- C6: the polling iteration's banner handling: no banner (or only the
generic banner while on the verification page) continues with no
resubmission; a detected banner triggers up to five resubmission clicks,
stopping at the first clearing re-check and continuing normally; if all five
re-checks still show a banner, the step raises IPBlockedError with the
expired-session message when the expired banner was seen, else the generic
message. -/
theorem c6_fatal_banner_resubmission (pageType : PageType) (pe : PageErrors)
    (recheck : Nat → PageErrors) :
    (pageErrorGuard pageType pe = false →
      handleFatalPageErrors pageType pe recheck = (.ok (), 0))
    ∧ (pageType = PageType.verify → pe.sessionExpired = false →
      handleFatalPageErrors pageType pe recheck = (.ok (), 0))
    ∧ (pageErrorGuard pageType pe = true →
      ∀ k, 1 ≤ k → k ≤ maxPageErrorRetries → pageErrorsClear (recheck k) = true →
      (∀ j, j < k → 1 ≤ j → pageErrorsClear (recheck j) = false) →
      handleFatalPageErrors pageType pe recheck = (.ok (), k))
    ∧ (pageErrorGuard pageType pe = true →
      (∀ j, j ≤ maxPageErrorRetries → 1 ≤ j → pageErrorsClear (recheck j) = false) →
      handleFatalPageErrors pageType pe recheck =
        (.error (.ipBlocked (if pe.sessionExpired then ("AWS error: signup session expired")
            else ("AWS error: likely IP blocked"))),
         maxPageErrorRetries)) := by
  refine ⟨?_, ?_, ?_, ?_⟩
  · intro h
    simp [handleFatalPageErrors, h]
  · intro h1 h2
    have hg : pageErrorGuard pageType pe = false := by
      simp [pageErrorGuard, h1, h2]
    simp [handleFatalPageErrors, hg]
  · intro hg k hk1 hk2 hclear hmin
    have hloop := resubmitLoop_first_clear recheck maxPageErrorRetries 1 k hk1
      (by simp only [maxPageErrorRetries] at hk2 ⊢; omega) hclear
      (fun j hj1 hj2 => hmin j hj2 hj1)
    simp only [handleFatalPageErrors, hg, if_true, hloop]
    have : k + 1 - 1 = k := by omega
    rw [this]
  · intro hg hfails
    have hloop := resubmitLoop_all_fail recheck maxPageErrorRetries 1
      (fun j hj1 hj2 => hfails j
        (by simp only [maxPageErrorRetries] at hj2 ⊢; omega) hj1)
    simp only [handleFatalPageErrors, hg, if_true, hloop]
    rw [if_neg (by simp : ¬(false = true))]

/-- Witness for C6: with the generic banner on a non-verification page, a
never-clearing oracle yields IPBlockedError after the full five resubmission
attempts; an oracle clearing on the third re-check continues normally after
three attempts; and the generic banner on the verification page is ignored. -/
theorem c6_fatal_banner_resubmission_witness :
    handleFatalPageErrors PageType.password samplePageErrorsGeneric sampleRecheckNever
      = (.error (.ipBlocked ("AWS error: likely IP blocked")), 5)
    ∧ handleFatalPageErrors PageType.password samplePageErrorsGeneric sampleRecheckClearAt3
      = (.ok (), 3)
    ∧ handleFatalPageErrors PageType.verify samplePageErrorsGeneric sampleRecheckNever
      = (.ok (), 0) := by
  refine ⟨?_, ?_, ?_⟩
  · have := (c6_fatal_banner_resubmission PageType.password samplePageErrorsGeneric
      sampleRecheckNever).2.2.2 (by decide) (by decide)
    simpa using this
  · exact (c6_fatal_banner_resubmission PageType.password samplePageErrorsGeneric
      sampleRecheckClearAt3).2.2.1 (by decide) 3 (by decide) (by decide) (by decide) (by decide)
  · exact (c6_fatal_banner_resubmission PageType.verify samplePageErrorsGeneric
      sampleRecheckNever).2.1 rfl rfl

/-- Helper: an id-targeted update leaves a list without that id unchanged. -/
theorem map_update_id (l : List SessionState) (n : Nat) (f : SessionState → SessionState)
    (h : ∀ s ∈ l, s.id ≠ n) :
    l.map (fun s => if s.id = n then f s else s) = l := by
  induction l with
  | nil => rfl
  | cons a t ih =>
    simp only [List.map_cons, if_neg (h a (List.mem_cons_self a t)),
      ih (fun s hs => h s (List.mem_cons_of_mem _ hs))]

/-- Helper: updating the freshly appended session rewrites only it. -/
theorem updateSessionMgr_append_last (reg : List SessionState) (s0 : SessionState)
    (f : SessionState → SessionState)
    (hids : ∀ s ∈ reg, s.id < reg.length) (hid : s0.id = reg.length) :
    updateSessionMgr (reg ++ [s0]) reg.length f = reg ++ [f s0] := by
  unfold updateSessionMgr
  rw [List.map_append]
  rw [map_update_id reg reg.length f (fun s hs => Nat.ne_of_lt (hids s hs))]
  simp [hid]

/-- Helper: find? skips a prefix on which the predicate is false. -/
theorem find?_append_of_not (p : SessionState → Bool) :
    ∀ (l1 l2 : List SessionState), (∀ a ∈ l1, p a = false) →
      List.find? p (l1 ++ l2) = List.find? p l2 := by
  intro l1
  induction l1 with
  | nil => intro l2 _; rfl
  | cons a t ih =>
    intro l2 h
    simp only [List.cons_append, List.find?_cons, h a (List.mem_cons_self a t)]
    exact ih l2 (fun b hb => h b (List.mem_cons_of_mem _ hb))

/-- Helper: looking up the freshly appended id finds the appended session. -/
theorem getSessionMgr_append_last (reg : List SessionState) (s0 : SessionState)
    (hids : ∀ s ∈ reg, s.id < reg.length) (hid : s0.id = reg.length) :
    getSessionMgr (reg ++ [s0]) reg.length = some s0 := by
  unfold getSessionMgr
  rw [find?_append_of_not _ reg [s0]
    (fun a ha => by
      have := hids a ha
      simp only [beq_eq_false_iff_ne, ne_eq]
      omega)]
  simp only [List.find?_cons]
  rw [show (s0.id == reg.length) = true from by simp [hid]]

/-- Helper: a pre-launch IP-blocked fault marks the fresh session error and
rethrows, with no browser opened. -/
theorem registrationWorker_failBefore_ipBlocked (mode : BrowserMode) (bid : String)
    (reg : List SessionState) (account : AWSBuilderIDAccount) (m : String)
    (hids : ∀ s ∈ reg, s.id < reg.length) :
    registrationWorker mode bid reg account (.failBeforeLaunch (.ipBlocked m)) =
      { registry := reg ++ [errSession reg.length account m],
        browserOpened := false, browserClosed := false,
        outcome := .error (.ipBlocked m) } := by
  simp only [registrationWorker, createSessionMgr]
  rw [updateSessionMgr_append_last reg _ _ hids rfl]
  rw [updateSessionMgr_append_last reg _ _ hids rfl]
  rfl

/-- Helper: a pre-launch fatal fault marks the fresh session error and
returns it, with no browser opened. -/
theorem registrationWorker_failBefore_fatal (mode : BrowserMode) (bid : String)
    (reg : List SessionState) (account : AWSBuilderIDAccount) (m : String)
    (hids : ∀ s ∈ reg, s.id < reg.length) :
    registrationWorker mode bid reg account (.failBeforeLaunch (.fatal m)) =
      { registry := reg ++ [errSession reg.length account m],
        browserOpened := false, browserClosed := false,
        outcome := .ok (errSession reg.length account m) } := by
  simp only [registrationWorker, createSessionMgr]
  rw [updateSessionMgr_append_last reg _ _ hids rfl]
  rw [updateSessionMgr_append_last reg _ _ hids rfl]
  simp only [workerErrorOutcome]
  rw [getSessionMgr_append_last reg _ hids rfl]
  rfl

/-- Helper: a post-launch IP-blocked fault marks the fresh session error,
closes the opened browser, and rethrows. -/
theorem registrationWorker_failAfter_ipBlocked (mode : BrowserMode) (bid : String)
    (reg : List SessionState) (account : AWSBuilderIDAccount) (m : String)
    (hids : ∀ s ∈ reg, s.id < reg.length) :
    registrationWorker mode bid reg account (.failAfterLaunch (.ipBlocked m)) =
      { registry := reg ++ [errSession reg.length account m],
        browserOpened := true, browserClosed := closesBrowser mode bid,
        outcome := .error (.ipBlocked m) } := by
  simp only [registrationWorker, createSessionMgr]
  rw [updateSessionMgr_append_last reg _ _ hids rfl]
  rw [updateSessionMgr_append_last reg _ _ hids rfl]
  rfl

/-- Helper: a post-launch fatal fault marks the fresh session error, closes
the opened browser, and returns the error session. -/
theorem registrationWorker_failAfter_fatal (mode : BrowserMode) (bid : String)
    (reg : List SessionState) (account : AWSBuilderIDAccount) (m : String)
    (hids : ∀ s ∈ reg, s.id < reg.length) :
    registrationWorker mode bid reg account (.failAfterLaunch (.fatal m)) =
      { registry := reg ++ [errSession reg.length account m],
        browserOpened := true, browserClosed := closesBrowser mode bid,
        outcome := .ok (errSession reg.length account m) } := by
  simp only [registrationWorker, createSessionMgr]
  rw [updateSessionMgr_append_last reg _ _ hids rfl]
  rw [updateSessionMgr_append_last reg _ _ hids rfl]
  simp only [workerErrorOutcome]
  rw [getSessionMgr_append_last reg _ hids rfl]
  rfl

/-- Helper: completion records the token and its validation status on the
fresh session, closes the browser, and returns the completed session. -/
theorem registrationWorker_finished (mode : BrowserMode) (bid : String)
    (reg : List SessionState) (account : AWSBuilderIDAccount) (token : TokenInfo)
    (ts : TokenStatus) (hids : ∀ s ∈ reg, s.id < reg.length) :
    registrationWorker mode bid reg account (.finished token ts) =
      { registry := reg ++ [complSession reg.length account token ts],
        browserOpened := true, browserClosed := closesBrowser mode bid,
        outcome := .ok (complSession reg.length account token ts) } := by
  simp only [registrationWorker, createSessionMgr]
  rw [updateSessionMgr_append_last reg _ _ hids rfl]
  rw [updateSessionMgr_append_last reg _ _ hids rfl]
  rw [updateSessionMgr_append_last reg _ _ hids rfl]
  rw [getSessionMgr_append_last reg _ hids rfl]
  rfl

/-- C3: every registrationWorker invocation leaves the session it registered
in a terminal status — completed or error, never pending, running or
polling_token — with any fault's message recorded verbatim, and the browser
it opened is closed on every exit path (success, IP-blocked rethrow, fatal
error), under the orchestrator's configurations (local mode, or roxy mode
with the worker's non-empty profile browser id). -/
theorem c3_session_terminal (mode : BrowserMode) (bid : String) (reg : List SessionState)
    (account : AWSBuilderIDAccount) (flow : FlowOutcome)
    (hids : ∀ s ∈ reg, s.id < reg.length) :
    ∃ s, (registrationWorker mode bid reg account flow).registry = reg ++ [s]
      ∧ s.id = reg.length ∧ s.account = account
      ∧ (s.status = SessionStatus.completed ∨ s.status = SessionStatus.error)
      ∧ (∀ e, (flow = .failBeforeLaunch e ∨ flow = .failAfterLaunch e) →
          s.status = SessionStatus.error ∧ s.error = some (workerErrorMsg e))
      ∧ ((registrationWorker mode bid reg account flow).browserOpened = true →
          mode = BrowserMode.localMode ∨ bid ≠ "" →
          (registrationWorker mode bid reg account flow).browserClosed = true) := by
  have hclose : (mode = BrowserMode.localMode ∨ bid ≠ "") → closesBrowser mode bid = true := by
    intro h
    cases mode with
    | roxy =>
      rcases h with h | h
      · exact BrowserMode.noConfusion h
      · simp only [closesBrowser, Bool.not_eq_true']
        rw [Bool.eq_false_iff]
        intro he
        exact h ((String.isEmpty_iff bid).mp he)
    | localMode => rfl
  cases flow with
  | failBeforeLaunch e =>
    cases e with
    | ipBlocked m =>
      rw [registrationWorker_failBefore_ipBlocked mode bid reg account m hids]
      exact ⟨errSession reg.length account m, rfl, rfl, rfl, Or.inr rfl,
        fun e' h => by
          rcases h with h | h
          · injection h with h'
            subst h'
            exact ⟨rfl, rfl⟩
          · exact FlowOutcome.noConfusion h,
        fun hop _ => by simp at hop⟩
    | fatal m =>
      rw [registrationWorker_failBefore_fatal mode bid reg account m hids]
      exact ⟨errSession reg.length account m, rfl, rfl, rfl, Or.inr rfl,
        fun e' h => by
          rcases h with h | h
          · injection h with h'
            subst h'
            exact ⟨rfl, rfl⟩
          · exact FlowOutcome.noConfusion h,
        fun hop _ => by simp at hop⟩
  | failAfterLaunch e =>
    cases e with
    | ipBlocked m =>
      rw [registrationWorker_failAfter_ipBlocked mode bid reg account m hids]
      exact ⟨errSession reg.length account m, rfl, rfl, rfl, Or.inr rfl,
        fun e' h => by
          rcases h with h | h
          · exact FlowOutcome.noConfusion h
          · injection h with h'
            subst h'
            exact ⟨rfl, rfl⟩,
        fun _ hmode => hclose hmode⟩
    | fatal m =>
      rw [registrationWorker_failAfter_fatal mode bid reg account m hids]
      exact ⟨errSession reg.length account m, rfl, rfl, rfl, Or.inr rfl,
        fun e' h => by
          rcases h with h | h
          · exact FlowOutcome.noConfusion h
          · injection h with h'
            subst h'
            exact ⟨rfl, rfl⟩,
        fun _ hmode => hclose hmode⟩
  | finished token ts =>
    rw [registrationWorker_finished mode bid reg account token ts hids]
    exact ⟨complSession reg.length account token ts, rfl, rfl, rfl, Or.inl rfl,
      fun e' h => by
        rcases h with h | h <;> exact FlowOutcome.noConfusion h,
      fun _ hmode => hclose hmode⟩

/-- Witness for C3: a fatal post-launch fault on an empty registry leaves
one terminal error session recording the timeout message, and the roxy-mode
browser of profile browser-1 is closed. -/
theorem c3_session_terminal_witness :
    ∃ s, (registrationWorker BrowserMode.roxy ("browser-1") [] sampleAccount
        (FlowOutcome.failAfterLaunch
          (WorkerError.fatal ("Registration flow timeout - max attempts reached")))).registry
        = [] ++ [s]
      ∧ s.id = List.length ([] : List SessionState) ∧ s.account = sampleAccount
      ∧ (s.status = SessionStatus.completed ∨ s.status = SessionStatus.error)
      ∧ (∀ e, (FlowOutcome.failAfterLaunch
            (WorkerError.fatal ("Registration flow timeout - max attempts reached"))
              = .failBeforeLaunch e
          ∨ FlowOutcome.failAfterLaunch
            (WorkerError.fatal ("Registration flow timeout - max attempts reached"))
              = .failAfterLaunch e) →
          s.status = SessionStatus.error ∧ s.error = some (workerErrorMsg e))
      ∧ ((registrationWorker BrowserMode.roxy ("browser-1") [] sampleAccount
          (FlowOutcome.failAfterLaunch
            (WorkerError.fatal ("Registration flow timeout - max attempts reached")))).browserOpened
            = true →
          BrowserMode.roxy = BrowserMode.localMode ∨ ("browser-1") ≠ "" →
          (registrationWorker BrowserMode.roxy ("browser-1") [] sampleAccount
            (FlowOutcome.failAfterLaunch
              (WorkerError.fatal ("Registration flow timeout - max attempts reached")))).browserClosed
            = true) :=
  c3_session_terminal BrowserMode.roxy ("browser-1") [] sampleAccount
    (FlowOutcome.failAfterLaunch
      (WorkerError.fatal ("Registration flow timeout - max attempts reached")))
    (fun s hs => absurd hs (List.not_mem_nil s))

/-- Helper: invocation counting distributes over append. -/
theorem invokeCount_append (a b : List WorkerEvent) :
    invokeCount (a ++ b) = invokeCount a + invokeCount b := by
  simp [invokeCount, List.filter_append]

/-- Helper: the proxy/reset prelude of a loop iteration contains no
invocation. -/
theorem invokeCount_pre (b rx : Bool) :
    invokeCount (if b then
        WorkerEvent.acquireProxy true :: (if rx then [WorkerEvent.resetProfile] else [])
      else []) = 0 := by
  cases b <;> cases rx <;> rfl

/-- Helper: a singleton invocation trace counts one invocation. -/
theorem invokeCount_single (k : Nat) : invokeCount [WorkerEvent.invokeSession k] = 1 := rfl

/-- Helper: an invocation at the head adds one to the count. -/
theorem invokeCount_invoke_cons (k : Nat) (l : List WorkerEvent) :
    invokeCount (WorkerEvent.invokeSession k :: l) = invokeCount l + 1 := by
  show (List.filter isInvoke (WorkerEvent.invokeSession k :: l)).length = _
  rw [List.filter_cons, if_pos (show isInvoke (WorkerEvent.invokeSession k) = true from rfl)]
  rfl

/-- Helper: no invocation event occurs in the prelude. -/
theorem invoke_not_mem_pre (b rx : Bool) (k : Nat) :
    WorkerEvent.invokeSession k ∉ (if b then
        WorkerEvent.acquireProxy true :: (if rx then [WorkerEvent.resetProfile] else [])
      else []) := by
  cases b <;> cases rx <;> simp

/-- Helper: the retry loop makes at most `fuel` Session invocations. -/
theorem accountLoopAux_invokeCount_le (flows : Nat → FlowOutcome) (proxyOk : Nat → Bool)
    (ue rx : Bool) (mode : BrowserMode) (bid : String) (account : AWSBuilderIDAccount) :
    ∀ (fuel rc : Nat) (reg : List SessionState),
      invokeCount (accountLoopAux flows proxyOk ue rx mode bid account fuel rc reg).1 ≤ fuel := by
  intro fuel
  induction fuel with
  | zero => intro rc reg; simp [accountLoopAux, invokeCount]
  | succ fuel ih =>
    intro rc reg
    simp only [accountLoopAux]
    by_cases h1 : (decide (rc > 0) && ue && !proxyOk rc) = true
    · rw [if_pos h1]
      simp [invokeCount, isInvoke]
    · rw [if_neg h1]
      cases ho : (registrationWorker mode bid reg account (flows rc)).outcome with
      | ok s =>
        try dsimp only
        rw [invokeCount_append, invokeCount_pre, invokeCount_single]
        omega
      | error e =>
        cases e with
        | ipBlocked m =>
          try dsimp only
          by_cases hrc : rc < maxRetries
          · rw [if_pos hrc, invokeCount_append, invokeCount_pre, invokeCount_invoke_cons]
            have := ih (rc + 1) (registrationWorker mode bid reg account (flows rc)).registry
            omega
          · rw [if_neg hrc, invokeCount_append, invokeCount_pre, invokeCount_single]
            omega
        | fatal m =>
          try dsimp only
          rw [invokeCount_append, invokeCount_pre, invokeCount_single]
          omega

/-- Helper: with proxies configured and roxy mode, a retry iteration's trace
is either a single failed proxy acquisition or starts with a successful
acquisition, a profile reset and the invocation at its retryCount. -/
theorem accountLoopAux_starts (flows : Nat → FlowOutcome) (proxyOk : Nat → Bool)
    (mode : BrowserMode) (bid : String) (account : AWSBuilderIDAccount) :
    ∀ (fuel rc : Nat) (reg : List SessionState), 0 < rc → 0 < fuel →
      (accountLoopAux flows proxyOk true true mode bid account fuel rc reg).1
        = [WorkerEvent.acquireProxy false]
      ∨ ∃ t, (accountLoopAux flows proxyOk true true mode bid account fuel rc reg).1
        = WorkerEvent.acquireProxy true :: WorkerEvent.resetProfile
            :: WorkerEvent.invokeSession rc :: t := by
  intro fuel rc reg hrc hfuel
  obtain ⟨f, rfl⟩ : ∃ f, fuel = f + 1 := ⟨fuel - 1, by omega⟩
  simp only [accountLoopAux]
  by_cases hp : proxyOk rc = true
  · rw [if_neg (by simp [hp])]
    rw [if_pos (by simp [hrc])]
    right
    cases ho : (registrationWorker mode bid reg account (flows rc)).outcome with
    | ok s =>
      try dsimp only
      exact ⟨[], rfl⟩
    | error e =>
      cases e with
      | ipBlocked m =>
        try dsimp only
        by_cases hrm : rc < maxRetries
        · rw [if_pos hrm]
          exact ⟨_, rfl⟩
        · rw [if_neg hrm]
          exact ⟨[], rfl⟩
      | fatal m =>
        try dsimp only
        exact ⟨[], rfl⟩
  · left
    rw [if_pos (by simp [hrc, hp])]

/-- Helper: only a flow that failed with IPBlockedError makes the worker's
outcome an IPBlockedError rethrow. -/
theorem outcome_ipBlocked_flow (mode : BrowserMode) (bid : String) (reg : List SessionState)
    (account : AWSBuilderIDAccount) (flow : FlowOutcome) (m : String)
    (h : (registrationWorker mode bid reg account flow).outcome = .error (.ipBlocked m)) :
    flowRaisesIpBlocked flow = true := by
  cases flow with
  | failBeforeLaunch e =>
    cases e with
    | ipBlocked m' => rfl
    | fatal m' =>
      exfalso
      simp only [registrationWorker, createSessionMgr, workerErrorOutcome] at h
      split at h
      · exact Except.noConfusion h
      · injection h with h2
        exact WorkerError.noConfusion h2
  | failAfterLaunch e =>
    cases e with
    | ipBlocked m' => rfl
    | fatal m' =>
      exfalso
      simp only [registrationWorker, createSessionMgr, workerErrorOutcome] at h
      split at h
      · exact Except.noConfusion h
      · injection h with h2
        exact WorkerError.noConfusion h2
  | finished token ts =>
    exfalso
    simp only [registrationWorker, createSessionMgr] at h
    split at h
    · exact Except.noConfusion h
    · injection h with h2
      exact WorkerError.noConfusion h2

/-- Helper: each invocation event of the retry loop sits inside the fuel
window, and every invocation beyond the first of the window happened only
because each earlier one raised IPBlockedError while the budget allowed a
retry. -/
theorem accountLoopAux_invoke_mem (flows : Nat → FlowOutcome) (proxyOk : Nat → Bool)
    (ue rx : Bool) (mode : BrowserMode) (bid : String) (account : AWSBuilderIDAccount) :
    ∀ (fuel rc : Nat) (reg : List SessionState) (k : Nat),
      WorkerEvent.invokeSession k
        ∈ (accountLoopAux flows proxyOk ue rx mode bid account fuel rc reg).1 →
      rc ≤ k ∧ k < rc + fuel
        ∧ ∀ j, rc ≤ j → j < k → flowRaisesIpBlocked (flows j) = true ∧ j < maxRetries := by
  intro fuel
  induction fuel with
  | zero => intro rc reg k h; simp [accountLoopAux] at h
  | succ fuel ih =>
    intro rc reg k h
    simp only [accountLoopAux] at h
    by_cases h1 : (decide (rc > 0) && ue && !proxyOk rc) = true
    · rw [if_pos h1] at h
      simp at h
    · rw [if_neg h1] at h
      revert h
      cases ho : (registrationWorker mode bid reg account (flows rc)).outcome with
      | ok s =>
        try dsimp only
        intro h
        rcases List.mem_append.mp h with hpre | hin
        · exact absurd hpre (invoke_not_mem_pre _ _ _)
        · simp only [List.mem_singleton, WorkerEvent.invokeSession.injEq] at hin
          subst hin
          exact ⟨Nat.le_refl _, by omega, fun j hj1 hj2 => by omega⟩
      | error e =>
        cases e with
        | ipBlocked m =>
          try dsimp only
          by_cases hrc : rc < maxRetries
          · rw [if_pos hrc]
            intro h
            rcases List.mem_append.mp h with hpre | hin
            · exact absurd hpre (invoke_not_mem_pre _ _ _)
            · rcases List.mem_cons.mp hin with heq | hrest
              · injection heq with heq'
                subst heq'
                exact ⟨Nat.le_refl _, by omega, fun j hj1 hj2 => by omega⟩
              · obtain ⟨hk1, hk2, hk3⟩ := ih (rc + 1) _ k hrest
                refine ⟨by omega, by omega, ?_⟩
                intro j hj1 hj2
                by_cases hj : j = rc
                · subst hj
                  exact ⟨outcome_ipBlocked_flow mode bid reg account (flows j) m ho, hrc⟩
                · exact hk3 j (by omega) hj2
          · rw [if_neg hrc]
            intro h
            rcases List.mem_append.mp h with hpre | hin
            · exact absurd hpre (invoke_not_mem_pre _ _ _)
            · simp only [List.mem_singleton, WorkerEvent.invokeSession.injEq] at hin
              subst hin
              exact ⟨Nat.le_refl _, by omega, fun j hj1 hj2 => by omega⟩
        | fatal m =>
          try dsimp only
          intro h
          rcases List.mem_append.mp h with hpre | hin
          · exact absurd hpre (invoke_not_mem_pre _ _ _)
          · simp only [List.mem_singleton, WorkerEvent.invokeSession.injEq] at hin
            subst hin
            exact ⟨Nat.le_refl _, by omega, fun j hj1 hj2 => by omega⟩

/-- Helper: with proxies configured and roxy mode, every retry invocation in
the trace is directly preceded by a successful proxy acquisition and a
profile reset. -/
theorem accountLoopAux_retry_infix (flows : Nat → FlowOutcome) (proxyOk : Nat → Bool)
    (mode : BrowserMode) (bid : String) (account : AWSBuilderIDAccount) :
    ∀ (fuel rc : Nat) (reg : List SessionState) (k : Nat), rc < k →
      WorkerEvent.invokeSession k
        ∈ (accountLoopAux flows proxyOk true true mode bid account fuel rc reg).1 →
      [WorkerEvent.acquireProxy true, WorkerEvent.resetProfile, WorkerEvent.invokeSession k]
        <:+: (accountLoopAux flows proxyOk true true mode bid account fuel rc reg).1 := by
  intro fuel
  induction fuel with
  | zero => intro rc reg k _ h; simp [accountLoopAux] at h
  | succ fuel ih =>
    intro rc reg k hrk h
    simp only [accountLoopAux] at h ⊢
    by_cases h1 : (decide (rc > 0) && true && !proxyOk rc) = true
    · rw [if_pos h1] at h ⊢
      simp at h
    · rw [if_neg h1] at h ⊢
      revert h
      cases ho : (registrationWorker mode bid reg account (flows rc)).outcome with
      | ok s =>
        try dsimp only
        intro h
        rcases List.mem_append.mp h with hpre | hin
        · simp at hpre
        · simp only [List.mem_singleton, WorkerEvent.invokeSession.injEq] at hin
          omega
      | error e =>
        cases e with
        | ipBlocked m =>
          try dsimp only
          by_cases hrc : rc < maxRetries
          · rw [if_pos hrc]
            intro h
            rcases List.mem_append.mp h with hpre | hin
            · simp at hpre
            · rcases List.mem_cons.mp hin with heq | hrest
              · injection heq with heq'
                omega
              · by_cases hk : k = rc + 1
                · subst hk
                  cases fuel with
                  | zero => simp [accountLoopAux] at hrest
                  | succ f =>
                    rcases accountLoopAux_starts flows proxyOk mode bid account (f + 1)
                        (rc + 1) (registrationWorker mode bid reg account (flows rc)).registry
                        (by omega) (by omega) with hst | ⟨t, hst⟩
                    · rw [hst] at hrest
                      simp at hrest
                    · have htriple : [WorkerEvent.acquireProxy true, WorkerEvent.resetProfile,
                          WorkerEvent.invokeSession (rc + 1)]
                          <+: (accountLoopAux flows proxyOk true true mode bid account (f + 1)
                            (rc + 1)
                            (registrationWorker mode bid reg account (flows rc)).registry).1 :=
                        ⟨t, by rw [hst]; rfl⟩
                      exact htriple.isInfix.trans
                        (((List.suffix_cons _ _).trans (List.suffix_append _ _)).isInfix)
                · have hin2 := ih (rc + 1) _ k (by omega) hrest
                  exact hin2.trans
                    (((List.suffix_cons _ _).trans (List.suffix_append _ _)).isInfix)
          · rw [if_neg hrc]
            intro h
            rcases List.mem_append.mp h with hpre | hin
            · simp at hpre
            · simp only [List.mem_singleton, WorkerEvent.invokeSession.injEq] at hin
              omega
        | fatal m =>
          try dsimp only
          intro h
          rcases List.mem_append.mp h with hpre | hin
          · simp at hpre
          · simp only [List.mem_singleton, WorkerEvent.invokeSession.injEq] at hin
            omega

/-- Helper: appending a session with the next id keeps ids below length. -/
theorem hids_snoc (reg : List SessionState) (x : SessionState)
    (hids : ∀ s ∈ reg, s.id < reg.length) (hx : x.id = reg.length) :
    ∀ s ∈ reg ++ [x], s.id < (reg ++ [x]).length := by
  intro s hs
  rcases List.mem_append.mp hs with h | h
  · have := hids s h
    simp only [List.length_append, List.length_singleton]
    omega
  · simp only [List.mem_singleton] at h
    subst h
    simp only [List.length_append, List.length_singleton, hx]
    omega

/-- Helper: the retry loop only ever appends to the registry, and every
appended session carries the loop's account candidate and a terminal
status. -/
theorem accountLoopAux_registry (flows : Nat → FlowOutcome) (proxyOk : Nat → Bool)
    (ue rx : Bool) (mode : BrowserMode) (bid : String) (account : AWSBuilderIDAccount) :
    ∀ (fuel rc : Nat) (reg : List SessionState), (∀ s ∈ reg, s.id < reg.length) →
      ∃ new, (accountLoopAux flows proxyOk ue rx mode bid account fuel rc reg).2.1 = reg ++ new
        ∧ ∀ s ∈ new, s.account = account
          ∧ (s.status = SessionStatus.completed ∨ s.status = SessionStatus.error) := by
  intro fuel
  induction fuel with
  | zero =>
    intro rc reg _
    exact ⟨[], by simp [accountLoopAux], by simp⟩
  | succ fuel ih =>
    intro rc reg hids
    simp only [accountLoopAux]
    by_cases h1 : (decide (rc > 0) && ue && !proxyOk rc) = true
    · rw [if_pos h1]
      exact ⟨[], by simp, by simp⟩
    · rw [if_neg h1]
      rcases hflow : flows rc with e | e | ⟨token, ts⟩
      · rcases e with m | m
        · rw [registrationWorker_failBefore_ipBlocked mode bid reg account m hids]
          try dsimp only
          by_cases hrc : rc < maxRetries
          · rw [if_pos hrc]
            obtain ⟨new, hreg, hprops⟩ := ih (rc + 1) (reg ++ [errSession reg.length account m])
              (hids_snoc reg _ hids rfl)
            refine ⟨errSession reg.length account m :: new, ?_, ?_⟩
            · rw [hreg, List.append_assoc]
              rfl
            · intro s hs
              rcases List.mem_cons.mp hs with rfl | hs
              · exact ⟨rfl, Or.inr rfl⟩
              · exact hprops s hs
          · rw [if_neg hrc]
            refine ⟨[errSession reg.length account m], rfl, ?_⟩
            intro s hs
            rcases List.mem_singleton.mp hs with rfl
            exact ⟨rfl, Or.inr rfl⟩
        · rw [registrationWorker_failBefore_fatal mode bid reg account m hids]
          try dsimp only
          refine ⟨[errSession reg.length account m], rfl, ?_⟩
          intro s hs
          rcases List.mem_singleton.mp hs with rfl
          exact ⟨rfl, Or.inr rfl⟩
      · rcases e with m | m
        · rw [registrationWorker_failAfter_ipBlocked mode bid reg account m hids]
          try dsimp only
          by_cases hrc : rc < maxRetries
          · rw [if_pos hrc]
            obtain ⟨new, hreg, hprops⟩ := ih (rc + 1) (reg ++ [errSession reg.length account m])
              (hids_snoc reg _ hids rfl)
            refine ⟨errSession reg.length account m :: new, ?_, ?_⟩
            · rw [hreg, List.append_assoc]
              rfl
            · intro s hs
              rcases List.mem_cons.mp hs with rfl | hs
              · exact ⟨rfl, Or.inr rfl⟩
              · exact hprops s hs
          · rw [if_neg hrc]
            refine ⟨[errSession reg.length account m], rfl, ?_⟩
            intro s hs
            rcases List.mem_singleton.mp hs with rfl
            exact ⟨rfl, Or.inr rfl⟩
        · rw [registrationWorker_failAfter_fatal mode bid reg account m hids]
          try dsimp only
          refine ⟨[errSession reg.length account m], rfl, ?_⟩
          intro s hs
          rcases List.mem_singleton.mp hs with rfl
          exact ⟨rfl, Or.inr rfl⟩
      · rw [registrationWorker_finished mode bid reg account token ts hids]
        try dsimp only
        refine ⟨[complSession reg.length account token ts], rfl, ?_⟩
        intro s hs
        rcases List.mem_singleton.mp hs with rfl
        exact ⟨rfl, Or.inl rfl⟩

/-- Helper: the worker's account iteration always processes every account:
one entry per account, regardless of skips, give-ups or failures. -/
theorem workerLoopAux_length (flowss : Nat → Nat → FlowOutcome) (proxyInit : Nat → Bool)
    (proxyRetry : Nat → Nat → Bool) (ue rx : Bool) (mode : BrowserMode) (bid : String) :
    ∀ (accounts : List AWSBuilderIDAccount) (i : Nat) (reg : List SessionState),
      (workerLoopAux flowss proxyInit proxyRetry ue rx mode bid accounts i reg).1.length
        = accounts.length := by
  intro accounts
  induction accounts with
  | nil => intro i reg; rfl
  | cons a rest ih =>
    intro i reg
    simp only [workerLoopAux]
    by_cases h : (ue && !proxyInit i) = true
    · rw [if_pos h]
      simp [ih]
    · rw [if_neg h]
      simp [ih]

/-- C2: the per-account retry loop (proxies configured, roxy mode) invokes
the Session at most four times; an invocation at retryCount k+1 exists only
when the invocation at k raised IPBlockedError within the three-retry
budget; every retry invocation is immediately preceded by a fresh proxy
acquisition and a profile reset; every session the loop registers carries
the same account candidate; and the worker's account iteration always
continues to the next account, whatever an account's outcome was. -/
theorem c2_retry_budget (flows : Nat → FlowOutcome) (proxyOk : Nat → Bool)
    (mode : BrowserMode) (bid : String) (account : AWSBuilderIDAccount)
    (reg : List SessionState) (hids : ∀ s ∈ reg, s.id < reg.length) :
    invokeCount (accountLoop flows proxyOk true true mode bid account reg).1 ≤ 4
    ∧ (∀ k, WorkerEvent.invokeSession (k + 1)
        ∈ (accountLoop flows proxyOk true true mode bid account reg).1 →
        flowRaisesIpBlocked (flows k) = true ∧ k < maxRetries)
    ∧ (∀ k, WorkerEvent.invokeSession (k + 1)
        ∈ (accountLoop flows proxyOk true true mode bid account reg).1 →
        [WorkerEvent.acquireProxy true, WorkerEvent.resetProfile,
          WorkerEvent.invokeSession (k + 1)]
          <:+: (accountLoop flows proxyOk true true mode bid account reg).1)
    ∧ (∀ s, s ∈ (accountLoop flows proxyOk true true mode bid account reg).2.1 →
        s ∈ reg ∨ s.account = account)
    ∧ (∀ (accounts : List AWSBuilderIDAccount) (flowss : Nat → Nat → FlowOutcome)
        (proxyInit : Nat → Bool) (proxyRetry : Nat → Nat → Bool) (i : Nat)
        (reg0 : List SessionState),
        (workerLoopAux flowss proxyInit proxyRetry true true mode bid accounts i reg0).1.length
          = accounts.length) := by
  refine ⟨?_, ?_, ?_, ?_, ?_⟩
  · exact accountLoopAux_invokeCount_le flows proxyOk true true mode bid account 4 0 reg
  · intro k h
    obtain ⟨-, -, hk3⟩ :=
      accountLoopAux_invoke_mem flows proxyOk true true mode bid account 4 0 reg (k + 1) h
    exact hk3 k (by omega) (by omega)
  · intro k h
    exact accountLoopAux_retry_infix flows proxyOk mode bid account 4 0 reg (k + 1)
      (by omega) h
  · intro s hs
    obtain ⟨new, hreg, hprops⟩ :=
      accountLoopAux_registry flows proxyOk true true mode bid account 4 0 reg hids
    rw [show accountLoop flows proxyOk true true mode bid account reg
      = accountLoopAux flows proxyOk true true mode bid account 4 0 reg from rfl, hreg] at hs
    rcases List.mem_append.mp hs with h | h
    · exact Or.inl h
    · exact Or.inr (hprops s h).1
  · intro accounts flowss proxyInit proxyRetry i reg0
    exact workerLoopAux_length flowss proxyInit proxyRetry true true mode bid accounts i reg0

/-- Witness for C2: under flow fates that raise IPBlockedError twice and then
succeed, the concrete trace has three invocations (at most four allowed), the
first flow indeed raised IPBlockedError within the budget, and the retry
invocation at retryCount 1 appears right after a proxy acquisition and a
profile reset. -/
theorem c2_retry_budget_witness :
    invokeCount (accountLoop sampleFlows sampleProxyOk true true BrowserMode.roxy
      ("browser-1") sampleAccount []).1 ≤ 4
    ∧ (flowRaisesIpBlocked (sampleFlows 0) = true ∧ 0 < maxRetries)
    ∧ [WorkerEvent.acquireProxy true, WorkerEvent.resetProfile, WorkerEvent.invokeSession 1]
        <:+: (accountLoop sampleFlows sampleProxyOk true true BrowserMode.roxy
          ("browser-1") sampleAccount []).1 := by
  have hc := c2_retry_budget sampleFlows sampleProxyOk BrowserMode.roxy ("browser-1")
    sampleAccount [] (fun s hs => absurd hs (List.not_mem_nil s))
  exact ⟨hc.1, hc.2.1 0 (by decide), hc.2.2.1 0 (by decide)⟩

/-- Helper: failed-session counting distributes over append. -/
theorem getFailedCount_append (l1 l2 : List SessionState) :
    getFailedCount (l1 ++ l2) = getFailedCount l1 + getFailedCount l2 := by
  simp [getFailedCount, getSessionsByStatus, List.filter_append]

/-- Helper: a run of abandoned attempts contributes exactly its length to the
failed count. -/
theorem getFailedCount_errRun (account : AWSBuilderIDAccount) (msgs : Nat → String) :
    ∀ (d base rc : Nat), getFailedCount (errRun account msgs base rc d) = d := by
  intro d
  induction d with
  | zero => intro base rc; rfl
  | succ d ih =>
    intro base rc
    simp only [errRun, getFailedCount, getSessionsByStatus, List.filter_cons]
    rw [if_pos (show (errSession base account (msgs rc)).status == SessionStatus.error
      from rfl)]
    have := ih (base + 1) (rc + 1)
    simp only [getFailedCount, getSessionsByStatus] at this
    simp [this]

/-- Helper: the k-th abandoned attempt's error session is in the run. -/
theorem mem_errRun (account : AWSBuilderIDAccount) (msgs : Nat → String) :
    ∀ (d base rc k : Nat), k < d →
      errSession (base + k) account (msgs (rc + k)) ∈ errRun account msgs base rc d := by
  intro d
  induction d with
  | zero => intro base rc k h; omega
  | succ d ih =>
    intro base rc k h
    cases k with
    | zero =>
      simp only [Nat.add_zero, errRun]
      exact List.mem_cons_self _ _
    | succ k =>
      have := ih (base + 1) (rc + 1) k (by omega)
      simp only [errRun]
      refine List.mem_cons_of_mem _ ?_
      have harith1 : base + 1 + k = base + (k + 1) := by omega
      have harith2 : rc + 1 + k = rc + (k + 1) := by omega
      rwa [harith1, harith2] at this

/-- Helper: with flow fates that raise IPBlockedError up to attempt `n` and
then finish, the retry loop appends one distinct error session per
IP-blocked attempt followed by the completed session, making one invocation
per attempt. -/
theorem accountLoopAux_scenario (flows : Nat → FlowOutcome) (proxyOk : Nat → Bool)
    (ue rx : Bool) (mode : BrowserMode) (bid : String) (account : AWSBuilderIDAccount)
    (msgs : Nat → String) (token : TokenInfo) (ts : TokenStatus) (n : Nat)
    (hn : n ≤ maxRetries)
    (hproxy : ∀ k, proxyOk k = true)
    (hfail : ∀ k, k < n → flows k = .failAfterLaunch (.ipBlocked (msgs k)))
    (hfin : flows n = .finished token ts) :
    ∀ (fuel rc : Nat) (reg : List SessionState), rc ≤ n → n - rc < fuel →
      (∀ s ∈ reg, s.id < reg.length) →
      (accountLoopAux flows proxyOk ue rx mode bid account fuel rc reg).2.1
        = reg ++ errRun account msgs reg.length rc (n - rc)
          ++ [complSession (reg.length + (n - rc)) account token ts]
      ∧ invokeCount (accountLoopAux flows proxyOk ue rx mode bid account fuel rc reg).1
        = (n - rc) + 1 := by
  intro fuel
  induction fuel with
  | zero => intro rc reg h1 h2; omega
  | succ fuel ih =>
    intro rc reg hrcn hwin hids
    simp only [accountLoopAux]
    rw [if_neg (by simp [hproxy rc])]
    by_cases hrc_n : rc = n
    · subst hrc_n
      rw [hfin, registrationWorker_finished mode bid reg account token ts hids]
      try dsimp only
      rw [Nat.sub_self]
      refine ⟨by simp [errRun], ?_⟩
      rw [invokeCount_append, invokeCount_pre, invokeCount_single]
    · have hlt : rc < n := by omega
      rw [hfail rc hlt, registrationWorker_failAfter_ipBlocked mode bid reg account
        (msgs rc) hids]
      try dsimp only
      rw [if_pos (show rc < maxRetries by omega)]
      obtain ⟨hreg, hcount⟩ := ih (rc + 1) (reg ++ [errSession reg.length account (msgs rc)])
        (by omega) (by omega) (hids_snoc reg _ hids rfl)
      constructor
      · rw [hreg]
        have hlen : (reg ++ [errSession reg.length account (msgs rc)]).length
            = reg.length + 1 := by simp
        rw [hlen]
        have hd : n - rc = (n - (rc + 1)) + 1 := by omega
        rw [hd]
        simp only [errRun]
        have harith : reg.length + 1 + (n - (rc + 1)) = reg.length + (n - (rc + 1) + 1) := by
          omega
        rw [harith]
        simp [List.append_assoc]
      · rw [invokeCount_append, invokeCount_pre, invokeCount_invoke_cons, hcount]
        omega

/-- C10: every registrationWorker invocation registers a brand-new session;
an IP-blocked fault marks that session error — with the message recorded —
before IPBlockedError is rethrown; so a retried account leaves one distinct
terminal error session per abandoned attempt in the registry, followed by
the completed session, and those abandoned attempts are counted in the batch
progress's failed total on top of the previously failed sessions. -/
theorem c10_abandoned_attempts (mode : BrowserMode) (bid : String)
    (reg : List SessionState) (account : AWSBuilderIDAccount) (m : String)
    (msgs : Nat → String) (token : TokenInfo) (ts : TokenStatus) (n : Nat)
    (flows : Nat → FlowOutcome) (proxyOk : Nat → Bool) (totalTarget : Nat)
    (hids : ∀ s ∈ reg, s.id < reg.length) (hn : n ≤ maxRetries)
    (hproxy : ∀ k, proxyOk k = true)
    (hfail : ∀ k, k < n → flows k = .failAfterLaunch (.ipBlocked (msgs k)))
    (hfin : flows n = .finished token ts) :
    ((registrationWorker mode bid reg account (.failAfterLaunch (.ipBlocked m))).registry
        = reg ++ [errSession reg.length account m]
      ∧ (registrationWorker mode bid reg account (.failAfterLaunch (.ipBlocked m))).outcome
        = .error (.ipBlocked m))
    ∧ (accountLoop flows proxyOk true true mode bid account reg).2.1
        = reg ++ errRun account msgs reg.length 0 n
          ++ [complSession (reg.length + n) account token ts]
    ∧ (∀ k, k < n → errSession (reg.length + k) account (msgs k)
        ∈ (accountLoop flows proxyOk true true mode bid account reg).2.1)
    ∧ invokeCount (accountLoop flows proxyOk true true mode bid account reg).1 = n + 1
    ∧ getFailedCount (accountLoop flows proxyOk true true mode bid account reg).2.1
        = getFailedCount reg + n
    ∧ (getProgress (accountLoop flows proxyOk true true mode bid account reg).2.1
        totalTarget).totalFailed = getFailedCount reg + n := by
  obtain ⟨hreg, hcount⟩ := accountLoopAux_scenario flows proxyOk true true mode bid account
    msgs token ts n hn hproxy hfail hfin (maxRetries + 1) 0 reg (by omega) (by omega) hids
  have hreg' : (accountLoop flows proxyOk true true mode bid account reg).2.1
      = reg ++ errRun account msgs reg.length 0 n
        ++ [complSession (reg.length + n) account token ts] := by
    simpa [accountLoop] using hreg
  have hcount' : invokeCount (accountLoop flows proxyOk true true mode bid account reg).1
      = n + 1 := by
    simpa [accountLoop] using hcount
  have hfailed : getFailedCount (accountLoop flows proxyOk true true mode bid account reg).2.1
      = getFailedCount reg + n := by
    rw [hreg', getFailedCount_append, getFailedCount_append,
      getFailedCount_errRun account msgs n reg.length 0]
    have : getFailedCount [complSession (reg.length + n) account token ts] = 0 := rfl
    rw [this]
    omega
  refine ⟨⟨?_, ?_⟩, hreg', ?_, hcount', hfailed, ?_⟩
  · rw [registrationWorker_failAfter_ipBlocked mode bid reg account m hids]
  · rw [registrationWorker_failAfter_ipBlocked mode bid reg account m hids]
  · intro k hk
    rw [hreg']
    refine List.mem_append.mpr (Or.inl (List.mem_append.mpr (Or.inr ?_)))
    have := mem_errRun account msgs n reg.length 0 k hk
    simpa using this
  · simp only [getProgress]
    exact hfailed

/-- Witness for C10: with two IP-blocked attempts before success on an empty
registry, the final registry holds exactly two error sessions (ids 0 and 1,
message recorded) and the completed session (id 2), three invocations were
made, and the failed total of the batch progress is 2. -/
theorem c10_abandoned_attempts_witness :
    (accountLoop sampleFlows sampleProxyOk true true BrowserMode.roxy ("browser-1")
      sampleAccount []).2.1
      = [] ++ errRun sampleAccount sampleMsgs 0 0 2
        ++ [complSession (List.length ([] : List SessionState) + 2) sampleAccount
          sampleToken TokenStatus.valid]
    ∧ invokeCount (accountLoop sampleFlows sampleProxyOk true true BrowserMode.roxy
        ("browser-1") sampleAccount []).1 = 2 + 1
    ∧ getFailedCount (accountLoop sampleFlows sampleProxyOk true true BrowserMode.roxy
        ("browser-1") sampleAccount []).2.1
      = getFailedCount [] + 2 := by
  have hc := c10_abandoned_attempts BrowserMode.roxy ("browser-1") [] sampleAccount
    ("AWS error: likely IP blocked") sampleMsgs sampleToken TokenStatus.valid 2
    sampleFlows sampleProxyOk 1
    (fun s hs => absurd hs (List.not_mem_nil s)) (by decide) (fun k => rfl)
    (fun k hk => by
      interval_cases k <;> rfl)
    rfl
  exact ⟨hc.2.1, hc.2.2.2.1, hc.2.2.2.2.1⟩

end KiroAccountFarm
